import Mathlib

set_option maxRecDepth 1000000

/-!
Verification of the path-rewrite routine of `_sysconfigdata__win32_.py`.

The source module consists of a literal mapping `build_time_vars` from
configuration keys to string or integer values, a fixed list
`keys_to_replace` of 20 path-valued keys, the derivation
`prefix = build_time_vars['BINDIR'][:-4]`, and a loop that stores
`value.replace(prefix, sys.prefix)` back under each listed key.

The embedding below models the mapping as an association list in source
order (the source dict has pairwise distinct keys), Python `str` values as
`String`, `dict` lookup and in-place assignment as `lookupV` / `updateV`,
Python `str.replace` as `pyStrReplace`, the slice `[:-4]` as `dropLast4`,
and the whole module-level pass as `loadAndNormalize`, which returns
`none` exactly when the Python code would raise (`KeyError` on a missing
key, `AttributeError`/`TypeError` on a non-string value).
-/

/-- A Python value stored in the configuration mapping: the source dict
holds only `str` and `int` values. -/
inductive PyVal where
  | str (s : String)
  | int (z : Int)
deriving DecidableEq

/-- Scanner for Python `str.replace` with a non-empty pattern `old`:
walks the character list left to right; `skip` counts characters of a
just-matched occurrence that remain to be consumed.  At `skip = 0`, a
position where `old` matches emits `new` and consumes the occurrence;
otherwise the character is kept.  This is Python's greedy,
non-overlapping, left-to-right, case-sensitive replacement of every
occurrence. -/
def replAux (old new : List Char) : List Char → Nat → List Char
  | [], _ => []
  | _ :: rest, Nat.succ skip => replAux old new rest skip
  | c :: rest, 0 =>
    if old.isPrefixOf (c :: rest) then
      new ++ replAux old new rest (old.length - 1)
    else
      c :: replAux old new rest 0

/-- Python `s.replace(old, new)` on character lists.  For the empty
pattern, Python inserts `new` at every gap (`"ab".replace("", "X") =
"XaXbX"`); otherwise every occurrence is replaced via `replAux`. -/
def pyReplaceL (s old new : List Char) : List Char :=
  match old with
  | [] => new ++ (s.map (fun c => c :: new)).flatten
  | _ :: _ => replAux old new s 0

/-- Python `s.replace(old, new)` on strings. -/
def pyStrReplace (s old new : String) : String :=
  ⟨pyReplaceL s.data old.data new.data⟩

/-- Python `s[:-4]`: the string without its last four characters (empty
when `s` has at most four characters). -/
def dropLast4 (s : String) : String :=
  ⟨s.data.take (s.data.length - 4)⟩

/-- Python `dict` lookup `m[k]`, scanning the association list in source
order; `none` models a `KeyError`. -/
def lookupV : List (String × PyVal) → String → Option PyVal
  | [], _ => none
  | kv :: rest, k => if kv.1 = k then some kv.2 else lookupV rest k

/-- Python `dict` assignment `m[k] = v` for a key already present:
replaces the value of the first entry with key `k`, leaving every other
entry untouched. -/
def updateV : List (String × PyVal) → String → PyVal → List (String × PyVal)
  | [], _, _ => []
  | kv :: rest, k, v => if kv.1 = k then (kv.1, v) :: rest else kv :: updateV rest k v

/-- One iteration of the source loop, for key `key`:
`value = build_time_vars[key]; build_time_vars[key] = value.replace(oldP, newP)`.
`none` models the `KeyError` on a missing key or the failure of
`.replace` on a non-string value. -/
def replaceStep (oldP newP : String) (m : List (String × PyVal)) (key : String) :
    Option (List (String × PyVal)) :=
  match lookupV m key with
  | some (PyVal.str s) => some (updateV m key (PyVal.str (pyStrReplace s oldP newP)))
  | _ => none

/-- The source loop `for key in ks: ...`, run sequentially over `ks`. -/
def applySteps (oldP newP : String) : List String → List (String × PyVal) →
    Option (List (String × PyVal))
  | [], m => some m
  | k :: ks, m =>
    match replaceStep oldP newP m k with
    | some m₂ => applySteps oldP newP ks m₂
    | none => none

/-- The fixed rewrite list `keys_to_replace` from the source, in source
order. -/
def keys_to_replace : List String := [
  "BINDIR", "BINLIBDEST", "CONFINCLUDEDIR",
  "CONFINCLUDEPY", "DESTDIRS", "DESTLIB", "DESTSHARED",
  "INCLDIRSTOMAKE", "INCLUDEDIR", "INCLUDEPY",
  "LIBDEST", "LIBDIR", "LIBPC", "LIBPL", "MACHDESTLIB",
  "MANDIR", "SCRIPTDIR", "datarootdir", "exec_prefix",
  "TZPATH"
]

/-- The normalization loop of the source, parametrized by the derived
old install root `oldP` and the runtime root `newP`:
`for key in keys_to_replace: build_time_vars[key] = build_time_vars[key].replace(oldP, newP)`. -/
def normalizeWith (oldP newP : String) (m : List (String × PyVal)) :
    Option (List (String × PyVal)) :=
  applySteps oldP newP keys_to_replace m

/-- The whole module-level pass: derive
`prefix = build_time_vars['BINDIR'][:-4]`, then run the rewrite loop with
the ambient runtime root `sysPfx` (Python's `sys.prefix`).  `none` models
a failure during module load. -/
def loadAndNormalize (sysPfx : String) (m : List (String × PyVal)) :
    Option (List (String × PyVal)) :=
  match lookupV m "BINDIR" with
  | some (PyVal.str b) => normalizeWith (dropLast4 b) sysPfx m
  | _ => none

/-- The old install root the source derives at load time:
`build_time_vars['BINDIR'][:-4]` evaluated on the embedded table. -/
def oldPfx : String :=
  "C:/buildroot/x86_64-1320-win32-seh-ucrt-rt_v11-rev0/mingw64/opt"
/-- The embedded build-configuration mapping `build_time_vars` from the source
module, transcribed entry for entry in source order.  String values are
`PyVal.str`, integer values are `PyVal.int`. -/
def build_time_vars : List (String × PyVal) := [
  ("ABIFLAGS", PyVal.str ""),
  ("AC_APPLE_UNIVERSAL_BUILD", PyVal.int 0),
  ("AIX_BUILDDATE", PyVal.int 0),
  ("AIX_GENUINE_CPLUSPLUS", PyVal.int 0),
  ("ALT_SOABI", PyVal.int 0),
  ("ANDROID_API_LEVEL", PyVal.int 0),
  ("AR", PyVal.str "ar"),
  ("ARFLAGS", PyVal.str "rcs"),
  ("BASECFLAGS", PyVal.str "-Wno-unused-result -Wsign-compare"),
  ("BASECPPFLAGS", PyVal.str "-IObjects -IInclude -IPython"),
  ("BASEMODLIBS", PyVal.str ""),
  ("BINDIR", PyVal.str "C:/buildroot/x86_64-1320-win32-seh-ucrt-rt_v11-rev0/mingw64/opt/bin"),
  ("BINLIBDEST", PyVal.str "C:/buildroot/x86_64-1320-win32-seh-ucrt-rt_v11-rev0/mingw64/opt/lib/python3.9"),
  ("BLDLIBRARY", PyVal.str "-L. -lpython3.9"),
  ("BLDSHARED", PyVal.str "x86_64-w64-mingw32-gcc -shared -Wl,--enable-auto-image-base -pipe -fno-ident -L/c/buildroot/x86_64-1320-win32-seh-ucrt-rt_v11-rev0/mingw64/opt/lib -L/c/buildroot/prerequisites/x86_64-zlib-static/lib -L/c/buildroot/prerequisites/x86_64-w64-mingw32-static/lib -LC:/buildroot/prerequisites/x86_64-zlib-static/lib -LC:/buildroot/x86_64-1320-win32-seh-ucrt-rt_v11-rev0/mingw64/opt/lib"),
  ("BUILDEXE", PyVal.str ".exe"),
  ("BUILDPYTHON", PyVal.str "python.exe"),
  ("BUILDPYTHONW", PyVal.str "pythonw.exe"),
  ("BUILDVENVLAUNCHER", PyVal.str "venvlauncher.exe"),
  ("BUILDVENVWLAUNCHER", PyVal.str "venvwlauncher.exe"),
  ("BUILD_GNU_TYPE", PyVal.str "x86_64-w64-mingw32"),
  ("BYTESTR_DEPS", PyVal.str "\\"),
  ("CC", PyVal.str "x86_64-w64-mingw32-gcc"),
  ("CCSHARED", PyVal.str ""),
  ("CFLAGS", PyVal.str "-Wno-unused-result -Wsign-compare -DNDEBUG -g -fwrapv -O3 -Wall -O2 -pipe -fno-ident -I/c/buildroot/x86_64-1320-win32-seh-ucrt-rt_v11-rev0/mingw64/opt/include -I/c/buildroot/prerequisites/x86_64-zlib-static/include -I/c/buildroot/prerequisites/x86_64-w64-mingw32-static/include -D__USE_MINGW_ANSI_STDIO=1"),
  ("CFLAGSFORSHARED", PyVal.str ""),
  ("CFLAGS_ALIASING", PyVal.str ""),
  ("CONFIGFILES", PyVal.str "configure configure.ac acconfig.h pyconfig.h.in Makefile.pre.in"),
  ("CONFIGURE_CFLAGS", PyVal.str "-O2 -pipe -fno-ident -I/c/buildroot/x86_64-1320-win32-seh-ucrt-rt_v11-rev0/mingw64/opt/include -I/c/buildroot/prerequisites/x86_64-zlib-static/include -I/c/buildroot/prerequisites/x86_64-w64-mingw32-static/include -D__USE_MINGW_ANSI_STDIO=1"),
  ("CONFIGURE_CFLAGS_NODIST", PyVal.str "-std=c99 -Wextra -Wno-unused-result -Wno-unused-parameter -Wno-missing-field-initializers -Wstrict-prototypes -Werror=implicit-function-declaration -fvisibility=hidden -D_WIN32_WINNT=0x0601 -DMS_DLL_ID=\x27\"3.9\"\x27"),
  ("CONFIGURE_CPPFLAGS", PyVal.str "-I../../../src/Python-3.9.10/PC  -I/c/buildroot/x86_64-1320-win32-seh-ucrt-rt_v11-rev0/mingw64/opt/include -I/c/buildroot/prerequisites/x86_64-zlib-static/include -I/c/buildroot/prerequisites/x86_64-w64-mingw32-static/include -IC:/buildroot/x86_64-1320-win32-seh-ucrt-rt_v11-rev0/mingw64/opt/include -IC:/buildroot/x86_64-1320-win32-seh-ucrt-rt_v11-rev0/mingw64/opt/include/ncursesw -IC:/buildroot/prerequisites/x86_64-zlib-static/include -I."),
  ("CONFIGURE_LDFLAGS", PyVal.str "-pipe -fno-ident -L/c/buildroot/x86_64-1320-win32-seh-ucrt-rt_v11-rev0/mingw64/opt/lib -L/c/buildroot/prerequisites/x86_64-zlib-static/lib -L/c/buildroot/prerequisites/x86_64-w64-mingw32-static/lib -LC:/buildroot/prerequisites/x86_64-zlib-static/lib -LC:/buildroot/x86_64-1320-win32-seh-ucrt-rt_v11-rev0/mingw64/opt/lib"),
  ("CONFIGURE_LDFLAGS_NODIST", PyVal.str ""),
  ("CONFIG_ARGS", PyVal.str "\x27--host=x86_64-w64-mingw32\x27 \x27--build=x86_64-w64-mingw32\x27 \x27--prefix=C:/buildroot/x86_64-1320-win32-seh-ucrt-rt_v11-rev0/mingw64/opt\x27 \x27--enable-shared\x27 \x27--with-system-expat\x27 \x27--with-system-ffi\x27 \x27--enable-loadable-sqlite-extensions\x27 \x27--without-ensurepip\x27 \x27--without-c-locale-coercion\x27 \x27--enable-optimizations\x27 \x27LIBFFI_INCLUDEDIR=C:/buildroot/x86_64-1320-win32-seh-ucrt-rt_v11-rev0/mingw64/opt/lib/libffi-3.2.1/include\x27 \x27CFLAGS=-O2 -pipe -fno-ident -I/c/buildroot/x86_64-1320-win32-seh-ucrt-rt_v11-rev0/mingw64/opt/include -I/c/buildroot/prerequisites/x86_64-zlib-static/include -I/c/buildroot/prerequisites/x86_64-w64-mingw32-static/include -D__USE_MINGW_ANSI_STDIO=1\x27 \x27CPPFLAGS= -I/c/buildroot/x86_64-1320-win32-seh-ucrt-rt_v11-rev0/mingw64/opt/include -I/c/buildroot/prerequisites/x86_64-zlib-static/include -I/c/buildroot/prerequisites/x86_64-w64-mingw32-static/include -IC:/buildroot/x86_64-1320-win32-seh-ucrt-rt_v11-rev0/mingw64/opt/include -IC:/buildroot/x86_64-1320-win32-seh-ucrt-rt_v11-rev0/mingw64/opt/include/ncursesw -IC:/buildroot/prerequisites/x86_64-zlib-static/include\x27 \x27LDFLAGS=-pipe -fno-ident -L/c/buildroot/x86_64-1320-win32-seh-ucrt-rt_v11-rev0/mingw64/opt/lib -L/c/buildroot/prerequisites/x86_64-zlib-static/lib -L/c/buildroot/prerequisites/x86_64-w64-mingw32-static/lib -LC:/buildroot/prerequisites/x86_64-zlib-static/lib -LC:/buildroot/x86_64-1320-win32-seh-ucrt-rt_v11-rev0/mingw64/opt/lib\x27 \x27build_alias=x86_64-w64-mingw32\x27 \x27host_alias=x86_64-w64-mingw32\x27"),
  ("CONFINCLUDEDIR", PyVal.str "C:/buildroot/x86_64-1320-win32-seh-ucrt-rt_v11-rev0/mingw64/opt/include"),
  ("CONFINCLUDEPY", PyVal.str "C:/buildroot/x86_64-1320-win32-seh-ucrt-rt_v11-rev0/mingw64/opt/include/python3.9"),
  ("COREPYTHONPATH", PyVal.str ""),
  ("COVERAGE_INFO", PyVal.str "/c/buildroot/x86_64-1320-win32-seh-ucrt-rt_v11-rev0/build/Python-3.9.10/coverage.info"),
  ("COVERAGE_REPORT", PyVal.str "/c/buildroot/x86_64-1320-win32-seh-ucrt-rt_v11-rev0/build/Python-3.9.10/lcov-report"),
  ("COVERAGE_REPORT_OPTIONS", PyVal.str "--no-branch-coverage --title \"CPython lcov report\""),
  ("CPPFLAGS", PyVal.str "-IObjects -IInclude -IPython -I. -I../../../src/Python-3.9.10/Include -I../../../src/Python-3.9.10/PC  -I/c/buildroot/x86_64-1320-win32-seh-ucrt-rt_v11-rev0/mingw64/opt/include -I/c/buildroot/prerequisites/x86_64-zlib-static/include -I/c/buildroot/prerequisites/x86_64-w64-mingw32-static/include -IC:/buildroot/x86_64-1320-win32-seh-ucrt-rt_v11-rev0/mingw64/opt/include -IC:/buildroot/x86_64-1320-win32-seh-ucrt-rt_v11-rev0/mingw64/opt/include/ncursesw -IC:/buildroot/prerequisites/x86_64-zlib-static/include -I."),
  ("CXX", PyVal.str "x86_64-w64-mingw32-c++"),
  ("DESTDIR", PyVal.str ""),
  ("DESTDIRFINAL", PyVal.str "/"),
  ("DESTDIRS", PyVal.str "C:/buildroot/x86_64-1320-win32-seh-ucrt-rt_v11-rev0/mingw64/opt C:/buildroot/x86_64-1320-win32-seh-ucrt-rt_v11-rev0/mingw64/opt/lib C:/buildroot/x86_64-1320-win32-seh-ucrt-rt_v11-rev0/mingw64/opt/lib/python3.9 C:/buildroot/x86_64-1320-win32-seh-ucrt-rt_v11-rev0/mingw64/opt/lib/python3.9/lib-dynload"),
  ("DESTLIB", PyVal.str "C:/buildroot/x86_64-1320-win32-seh-ucrt-rt_v11-rev0/mingw64/opt/lib/python3.9"),
  ("DESTPATH", PyVal.str ""),
  ("DESTSHARED", PyVal.str "C:/buildroot/x86_64-1320-win32-seh-ucrt-rt_v11-rev0/mingw64/opt/lib/python3.9/lib-dynload"),
  ("DFLAGS", PyVal.str ""),
  ("DIRMODE", PyVal.int 755),
  ("DIST", PyVal.str "README.rst ChangeLog configure configure.ac acconfig.h pyconfig.h.in Makefile.pre.in Include Lib Misc Ext-dummy"),
  ("DISTDIRS", PyVal.str "Include Lib Misc Ext-dummy"),
  ("DISTFILES", PyVal.str "README.rst ChangeLog configure configure.ac acconfig.h pyconfig.h.in Makefile.pre.in"),
  ("DLINCLDIR", PyVal.str "."),
  ("DLLLIBRARY", PyVal.str "libpython3.9.dll"),
  ("DOUBLE_IS_ARM_MIXED_ENDIAN_IEEE754", PyVal.int 0),
  ("DOUBLE_IS_BIG_ENDIAN_IEEE754", PyVal.int 0),
  ("DOUBLE_IS_LITTLE_ENDIAN_IEEE754", PyVal.int 1),
  ("DTRACE", PyVal.str ""),
  ("DTRACE_DEPS", PyVal.str "\\"),
  ("DTRACE_HEADERS", PyVal.str ""),
  ("DTRACE_OBJS", PyVal.str ""),
  ("DYNLOADFILE", PyVal.str "dynload_win.o"),
  ("ENABLE_IPV6", PyVal.int 0),
  ("ENSUREPIP", PyVal.str "no"),
  ("EXE", PyVal.str ".exe"),
  ("EXEMODE", PyVal.int 755),
  ("EXPORTSFROM", PyVal.str ""),
  ("EXPORTSYMS", PyVal.str ""),
  ("EXTRATESTOPTS", PyVal.str ""),
  ("EXTRA_CFLAGS", PyVal.str ""),
  ("EXT_SUFFIX", PyVal.str ".cp39-mingw_x86_64_ucrt.pyd"),
  ("FILEMODE", PyVal.int 644),
  ("FLOAT_WORDS_BIGENDIAN", PyVal.int 0),
  ("FLOCK_NEEDS_LIBBSD", PyVal.int 0),
  ("GETPGRP_HAVE_ARG", PyVal.int 0),
  ("GITBRANCH", PyVal.str "git --git-dir ../../../src/Python-3.9.10/.git name-rev --name-only HEAD"),
  ("GITTAG", PyVal.str "git --git-dir ../../../src/Python-3.9.10/.git describe --all --always --dirty"),
  ("GITVERSION", PyVal.str "git --git-dir ../../../src/Python-3.9.10/.git rev-parse --short HEAD"),
  ("GNULD", PyVal.str "yes"),
  ("HAVE_ACCEPT4", PyVal.int 0),
  ("HAVE_ACOSH", PyVal.int 1),
  ("HAVE_ADDRINFO", PyVal.int 1),
  ("HAVE_ALARM", PyVal.int 0),
  ("HAVE_ALIGNED_REQUIRED", PyVal.int 0),
  ("HAVE_ALLOCA_H", PyVal.int 0),
  ("HAVE_ALTZONE", PyVal.int 0),
  ("HAVE_ASINH", PyVal.int 1),
  ("HAVE_ASM_TYPES_H", PyVal.int 0),
  ("HAVE_ATANH", PyVal.int 1),
  ("HAVE_BIND_TEXTDOMAIN_CODESET", PyVal.int 0),
  ("HAVE_BLUETOOTH_BLUETOOTH_H", PyVal.int 0),
  ("HAVE_BLUETOOTH_H", PyVal.int 0),
  ("HAVE_BROKEN_MBSTOWCS", PyVal.int 0),
  ("HAVE_BROKEN_NICE", PyVal.int 0),
  ("HAVE_BROKEN_PIPE_BUF", PyVal.int 0),
  ("HAVE_BROKEN_POLL", PyVal.int 0),
  ("HAVE_BROKEN_POSIX_SEMAPHORES", PyVal.int 0),
  ("HAVE_BROKEN_PTHREAD_SIGMASK", PyVal.int 0),
  ("HAVE_BROKEN_SEM_GETVALUE", PyVal.int 0),
  ("HAVE_BROKEN_UNSETENV", PyVal.int 0),
  ("HAVE_BUILTIN_ATOMIC", PyVal.int 1),
  ("HAVE_CHFLAGS", PyVal.int 0),
  ("HAVE_CHOWN", PyVal.int 0),
  ("HAVE_CHROOT", PyVal.int 0),
  ("HAVE_CLOCK", PyVal.int 1),
  ("HAVE_CLOCK_GETRES", PyVal.int 0),
  ("HAVE_CLOCK_GETTIME", PyVal.int 0),
  ("HAVE_CLOCK_SETTIME", PyVal.int 0),
  ("HAVE_COMPUTED_GOTOS", PyVal.int 1),
  ("HAVE_CONFSTR", PyVal.int 0),
  ("HAVE_CONIO_H", PyVal.int 1),
  ("HAVE_COPYSIGN", PyVal.int 1),
  ("HAVE_COPY_FILE_RANGE", PyVal.int 0),
  ("HAVE_CRYPT_H", PyVal.int 0),
  ("HAVE_CRYPT_R", PyVal.int 0),
  ("HAVE_CTERMID", PyVal.int 0),
  ("HAVE_CTERMID_R", PyVal.int 0),
  ("HAVE_CURSES_FILTER", PyVal.int 0),
  ("HAVE_CURSES_H", PyVal.int 0),
  ("HAVE_CURSES_HAS_KEY", PyVal.int 0),
  ("HAVE_CURSES_IMMEDOK", PyVal.int 0),
  ("HAVE_CURSES_IS_PAD", PyVal.int 0),
  ("HAVE_CURSES_IS_TERM_RESIZED", PyVal.int 0),
  ("HAVE_CURSES_RESIZETERM", PyVal.int 0),
  ("HAVE_CURSES_RESIZE_TERM", PyVal.int 0),
  ("HAVE_CURSES_SYNCOK", PyVal.int 0),
  ("HAVE_CURSES_TYPEAHEAD", PyVal.int 0),
  ("HAVE_CURSES_USE_ENV", PyVal.int 0),
  ("HAVE_CURSES_WCHGAT", PyVal.int 0),
  ("HAVE_DECL_ISFINITE", PyVal.int 1),
  ("HAVE_DECL_ISINF", PyVal.int 1),
  ("HAVE_DECL_ISNAN", PyVal.int 1),
  ("HAVE_DECL_RTLD_DEEPBIND", PyVal.int 0),
  ("HAVE_DECL_RTLD_GLOBAL", PyVal.int 0),
  ("HAVE_DECL_RTLD_LAZY", PyVal.int 0),
  ("HAVE_DECL_RTLD_LOCAL", PyVal.int 0),
  ("HAVE_DECL_RTLD_MEMBER", PyVal.int 0),
  ("HAVE_DECL_RTLD_NODELETE", PyVal.int 0),
  ("HAVE_DECL_RTLD_NOLOAD", PyVal.int 0),
  ("HAVE_DECL_RTLD_NOW", PyVal.int 0),
  ("HAVE_DECL_TZNAME", PyVal.int 1),
  ("HAVE_DEVICE_MACROS", PyVal.int 0),
  ("HAVE_DEV_PTC", PyVal.int 0),
  ("HAVE_DEV_PTMX", PyVal.int 0),
  ("HAVE_DIRECT_H", PyVal.int 1),
  ("HAVE_DIRENT_D_TYPE", PyVal.int 0),
  ("HAVE_DIRENT_H", PyVal.int 1),
  ("HAVE_DIRFD", PyVal.int 0),
  ("HAVE_DLFCN_H", PyVal.int 0),
  ("HAVE_DLOPEN", PyVal.int 0),
  ("HAVE_DUP2", PyVal.int 1),
  ("HAVE_DUP3", PyVal.int 0),
  ("HAVE_DYLD_SHARED_CACHE_CONTAINS_PATH", PyVal.int 0),
  ("HAVE_DYNAMIC_LOADING", PyVal.int 1),
  ("HAVE_ENDIAN_H", PyVal.int 0),
  ("HAVE_EPOLL", PyVal.int 0),
  ("HAVE_EPOLL_CREATE1", PyVal.int 0),
  ("HAVE_ERF", PyVal.int 1),
  ("HAVE_ERFC", PyVal.int 1),
  ("HAVE_ERRNO_H", PyVal.int 1),
  ("HAVE_EXECV", PyVal.int 1),
  ("HAVE_EXPLICIT_BZERO", PyVal.int 0),
  ("HAVE_EXPLICIT_MEMSET", PyVal.int 0),
  ("HAVE_EXPM1", PyVal.int 1),
  ("HAVE_FACCESSAT", PyVal.int 0),
  ("HAVE_FCHDIR", PyVal.int 0),
  ("HAVE_FCHMOD", PyVal.int 0),
  ("HAVE_FCHMODAT", PyVal.int 0),
  ("HAVE_FCHOWN", PyVal.int 0),
  ("HAVE_FCHOWNAT", PyVal.int 0),
  ("HAVE_FCNTL_H", PyVal.int 1),
  ("HAVE_FDATASYNC", PyVal.int 0),
  ("HAVE_FDOPENDIR", PyVal.int 0),
  ("HAVE_FDWALK", PyVal.int 0),
  ("HAVE_FEXECVE", PyVal.int 0),
  ("HAVE_FINITE", PyVal.int 1),
  ("HAVE_FLOCK", PyVal.int 0),
  ("HAVE_FORK", PyVal.int 0),
  ("HAVE_FORKPTY", PyVal.int 0),
  ("HAVE_FPATHCONF", PyVal.int 0),
  ("HAVE_FSEEK64", PyVal.int 0),
  ("HAVE_FSEEKO", PyVal.int 1),
  ("HAVE_FSTATAT", PyVal.int 0),
  ("HAVE_FSTATVFS", PyVal.int 0),
  ("HAVE_FSYNC", PyVal.int 0),
  ("HAVE_FTELL64", PyVal.int 0),
  ("HAVE_FTELLO", PyVal.int 1),
  ("HAVE_FTIME", PyVal.int 1),
  ("HAVE_FTRUNCATE", PyVal.int 0),
  ("HAVE_FUTIMENS", PyVal.int 0),
  ("HAVE_FUTIMES", PyVal.int 0),
  ("HAVE_FUTIMESAT", PyVal.int 0),
  ("HAVE_GAI_STRERROR", PyVal.int 0),
  ("HAVE_GAMMA", PyVal.int 0),
  ("HAVE_GCC_ASM_FOR_MC68881", PyVal.int 0),
  ("HAVE_GCC_ASM_FOR_X64", PyVal.int 1),
  ("HAVE_GCC_ASM_FOR_X87", PyVal.int 1),
  ("HAVE_GCC_UINT128_T", PyVal.int 1),
  ("HAVE_GETADDRINFO", PyVal.int 0),
  ("HAVE_GETC_UNLOCKED", PyVal.int 0),
  ("HAVE_GETENTROPY", PyVal.int 0),
  ("HAVE_GETGRGID_R", PyVal.int 0),
  ("HAVE_GETGRNAM_R", PyVal.int 0),
  ("HAVE_GETGROUPLIST", PyVal.int 0),
  ("HAVE_GETGROUPS", PyVal.int 0),
  ("HAVE_GETHOSTBYNAME", PyVal.int 0),
  ("HAVE_GETHOSTBYNAME_R", PyVal.int 0),
  ("HAVE_GETHOSTBYNAME_R_3_ARG", PyVal.int 0),
  ("HAVE_GETHOSTBYNAME_R_5_ARG", PyVal.int 0),
  ("HAVE_GETHOSTBYNAME_R_6_ARG", PyVal.int 0),
  ("HAVE_GETITIMER", PyVal.int 0),
  ("HAVE_GETLOADAVG", PyVal.int 0),
  ("HAVE_GETLOGIN", PyVal.int 1),
  ("HAVE_GETNAMEINFO", PyVal.int 0),
  ("HAVE_GETPAGESIZE", PyVal.int 0),
  ("HAVE_GETPEERNAME", PyVal.int 1),
  ("HAVE_GETPGID", PyVal.int 0),
  ("HAVE_GETPGRP", PyVal.int 0),
  ("HAVE_GETPID", PyVal.int 1),
  ("HAVE_GETPRIORITY", PyVal.int 0),
  ("HAVE_GETPWENT", PyVal.int 0),
  ("HAVE_GETPWNAM_R", PyVal.int 0),
  ("HAVE_GETPWUID_R", PyVal.int 0),
  ("HAVE_GETRANDOM", PyVal.int 0),
  ("HAVE_GETRANDOM_SYSCALL", PyVal.int 0),
  ("HAVE_GETRESGID", PyVal.int 0),
  ("HAVE_GETRESUID", PyVal.int 0),
  ("HAVE_GETSID", PyVal.int 0),
  ("HAVE_GETSPENT", PyVal.int 0),
  ("HAVE_GETSPNAM", PyVal.int 0),
  ("HAVE_GETWD", PyVal.int 0),
  ("HAVE_GLIBC_MEMMOVE_BUG", PyVal.int 0),
  ("HAVE_GRP_H", PyVal.int 0),
  ("HAVE_HSTRERROR", PyVal.int 0),
  ("HAVE_HTOLE64", PyVal.int 0),
  ("HAVE_HYPOT", PyVal.int 1),
  ("HAVE_IEEEFP_H", PyVal.int 1),
  ("HAVE_IF_NAMEINDEX", PyVal.int 0),
  ("HAVE_INET_ATON", PyVal.int 0),
  ("HAVE_INET_PTON", PyVal.int 1),
  ("HAVE_INITGROUPS", PyVal.int 0),
  ("HAVE_INTTYPES_H", PyVal.int 1),
  ("HAVE_IO_H", PyVal.int 1),
  ("HAVE_IPA_PURE_CONST_BUG", PyVal.int 0),
  ("HAVE_KILL", PyVal.int 0),
  ("HAVE_KILLPG", PyVal.int 0),
  ("HAVE_KQUEUE", PyVal.int 0),
  ("HAVE_LANGINFO_H", PyVal.int 0),
  ("HAVE_LARGEFILE_SUPPORT", PyVal.int 1),
  ("HAVE_LCHFLAGS", PyVal.int 0),
  ("HAVE_LCHMOD", PyVal.int 0),
  ("HAVE_LCHOWN", PyVal.int 0),
  ("HAVE_LGAMMA", PyVal.int 1),
  ("HAVE_LIBDL", PyVal.int 0),
  ("HAVE_LIBDLD", PyVal.int 0),
  ("HAVE_LIBIEEE", PyVal.int 0),
  ("HAVE_LIBINTL_H", PyVal.int 0),
  ("HAVE_LIBREADLINE", PyVal.int 1),
  ("HAVE_LIBRESOLV", PyVal.int 0),
  ("HAVE_LIBSENDFILE", PyVal.int 0),
  ("HAVE_LIBUTIL_H", PyVal.int 0),
  ("HAVE_LIBUUID", PyVal.int 0),
  ("HAVE_LINK", PyVal.int 0),
  ("HAVE_LINKAT", PyVal.int 0),
  ("HAVE_LINUX_CAN_BCM_H", PyVal.int 0),
  ("HAVE_LINUX_CAN_H", PyVal.int 0),
  ("HAVE_LINUX_CAN_J1939_H", PyVal.int 0),
  ("HAVE_LINUX_CAN_RAW_FD_FRAMES", PyVal.int 0),
  ("HAVE_LINUX_CAN_RAW_H", PyVal.int 0),
  ("HAVE_LINUX_CAN_RAW_JOIN_FILTERS", PyVal.int 0),
  ("HAVE_LINUX_MEMFD_H", PyVal.int 0),
  ("HAVE_LINUX_NETLINK_H", PyVal.int 0),
  ("HAVE_LINUX_QRTR_H", PyVal.int 0),
  ("HAVE_LINUX_RANDOM_H", PyVal.int 0),
  ("HAVE_LINUX_TIPC_H", PyVal.int 0),
  ("HAVE_LINUX_VM_SOCKETS_H", PyVal.int 0),
  ("HAVE_LINUX_WAIT_H", PyVal.int 0),
  ("HAVE_LOCKF", PyVal.int 0),
  ("HAVE_LOG1P", PyVal.int 1),
  ("HAVE_LOG2", PyVal.int 1),
  ("HAVE_LONG_DOUBLE", PyVal.int 1),
  ("HAVE_LSTAT", PyVal.int 0),
  ("HAVE_LUTIMES", PyVal.int 0),
  ("HAVE_MADVISE", PyVal.int 0),
  ("HAVE_MAKEDEV", PyVal.int 0),
  ("HAVE_MBRTOWC", PyVal.int 1),
  ("HAVE_MEMFD_CREATE", PyVal.int 0),
  ("HAVE_MEMORY_H", PyVal.int 1),
  ("HAVE_MEMRCHR", PyVal.int 0),
  ("HAVE_MKDIRAT", PyVal.int 0),
  ("HAVE_MKFIFO", PyVal.int 0),
  ("HAVE_MKFIFOAT", PyVal.int 0),
  ("HAVE_MKNOD", PyVal.int 0),
  ("HAVE_MKNODAT", PyVal.int 0),
  ("HAVE_MKTIME", PyVal.int 1),
  ("HAVE_MMAP", PyVal.int 0),
  ("HAVE_MREMAP", PyVal.int 0),
  ("HAVE_NCURSES_H", PyVal.int 0),
  ("HAVE_NDIR_H", PyVal.int 0),
  ("HAVE_NETPACKET_PACKET_H", PyVal.int 0),
  ("HAVE_NET_IF_H", PyVal.int 0),
  ("HAVE_NICE", PyVal.int 0),
  ("HAVE_NON_UNICODE_WCHAR_T_REPRESENTATION", PyVal.int 0),
  ("HAVE_OPENAT", PyVal.int 0),
  ("HAVE_OPENPTY", PyVal.int 0),
  ("HAVE_PATHCONF", PyVal.int 0),
  ("HAVE_PAUSE", PyVal.int 0),
  ("HAVE_PIPE2", PyVal.int 0),
  ("HAVE_PLOCK", PyVal.int 0),
  ("HAVE_POLL", PyVal.int 0),
  ("HAVE_POLL_H", PyVal.int 0),
  ("HAVE_POSIX_FADVISE", PyVal.int 0),
  ("HAVE_POSIX_FALLOCATE", PyVal.int 0),
  ("HAVE_POSIX_SPAWN", PyVal.int 0),
  ("HAVE_POSIX_SPAWNP", PyVal.int 0),
  ("HAVE_PREAD", PyVal.int 0),
  ("HAVE_PREADV", PyVal.int 0),
  ("HAVE_PREADV2", PyVal.int 0),
  ("HAVE_PRLIMIT", PyVal.int 0),
  ("HAVE_PROCESS_H", PyVal.int 1),
  ("HAVE_PROTOTYPES", PyVal.int 1),
  ("HAVE_PTHREAD_CONDATTR_SETCLOCK", PyVal.int 0),
  ("HAVE_PTHREAD_DESTRUCTOR", PyVal.int 0),
  ("HAVE_PTHREAD_GETCPUCLOCKID", PyVal.int 0),
  ("HAVE_PTHREAD_H", PyVal.int 0),
  ("HAVE_PTHREAD_INIT", PyVal.int 0),
  ("HAVE_PTHREAD_KILL", PyVal.int 0),
  ("HAVE_PTHREAD_SIGMASK", PyVal.int 0),
  ("HAVE_PTY_H", PyVal.int 0),
  ("HAVE_PWRITE", PyVal.int 0),
  ("HAVE_PWRITEV", PyVal.int 0),
  ("HAVE_PWRITEV2", PyVal.int 0),
  ("HAVE_READLINK", PyVal.int 0),
  ("HAVE_READLINKAT", PyVal.int 0),
  ("HAVE_READV", PyVal.int 0),
  ("HAVE_REALPATH", PyVal.int 0),
  ("HAVE_RENAMEAT", PyVal.int 0),
  ("HAVE_RL_APPEND_HISTORY", PyVal.int 1),
  ("HAVE_RL_CATCH_SIGNAL", PyVal.int 1),
  ("HAVE_RL_COMPLETION_APPEND_CHARACTER", PyVal.int 1),
  ("HAVE_RL_COMPLETION_DISPLAY_MATCHES_HOOK", PyVal.int 1),
  ("HAVE_RL_COMPLETION_MATCHES", PyVal.int 1),
  ("HAVE_RL_COMPLETION_SUPPRESS_APPEND", PyVal.int 1),
  ("HAVE_RL_PRE_INPUT_HOOK", PyVal.int 1),
  ("HAVE_RL_RESIZE_TERMINAL", PyVal.int 1),
  ("HAVE_ROUND", PyVal.int 1),
  ("HAVE_RTPSPAWN", PyVal.int 0),
  ("HAVE_SCHED_GET_PRIORITY_MAX", PyVal.int 0),
  ("HAVE_SCHED_H", PyVal.int 0),
  ("HAVE_SCHED_RR_GET_INTERVAL", PyVal.int 0),
  ("HAVE_SCHED_SETAFFINITY", PyVal.int 0),
  ("HAVE_SCHED_SETPARAM", PyVal.int 0),
  ("HAVE_SCHED_SETSCHEDULER", PyVal.int 0),
  ("HAVE_SEM_CLOCKWAIT", PyVal.int 0),
  ("HAVE_SEM_GETVALUE", PyVal.int 0),
  ("HAVE_SEM_OPEN", PyVal.int 0),
  ("HAVE_SEM_TIMEDWAIT", PyVal.int 0),
  ("HAVE_SEM_UNLINK", PyVal.int 0),
  ("HAVE_SENDFILE", PyVal.int 0),
  ("HAVE_SETEGID", PyVal.int 0),
  ("HAVE_SETEUID", PyVal.int 0),
  ("HAVE_SETGID", PyVal.int 0),
  ("HAVE_SETGROUPS", PyVal.int 0),
  ("HAVE_SETHOSTNAME", PyVal.int 0),
  ("HAVE_SETITIMER", PyVal.int 0),
  ("HAVE_SETLOCALE", PyVal.int 1),
  ("HAVE_SETPGID", PyVal.int 0),
  ("HAVE_SETPGRP", PyVal.int 0),
  ("HAVE_SETPRIORITY", PyVal.int 0),
  ("HAVE_SETREGID", PyVal.int 0),
  ("HAVE_SETRESGID", PyVal.int 0),
  ("HAVE_SETRESUID", PyVal.int 0),
  ("HAVE_SETREUID", PyVal.int 0),
  ("HAVE_SETSID", PyVal.int 0),
  ("HAVE_SETUID", PyVal.int 0),
  ("HAVE_SETVBUF", PyVal.int 1),
  ("HAVE_SHADOW_H", PyVal.int 0),
  ("HAVE_SHM_OPEN", PyVal.int 0),
  ("HAVE_SHM_UNLINK", PyVal.int 0),
  ("HAVE_SIGACTION", PyVal.int 0),
  ("HAVE_SIGALTSTACK", PyVal.int 0),
  ("HAVE_SIGFILLSET", PyVal.int 0),
  ("HAVE_SIGINFO_T_SI_BAND", PyVal.int 0),
  ("HAVE_SIGINTERRUPT", PyVal.int 0),
  ("HAVE_SIGNAL_H", PyVal.int 1),
  ("HAVE_SIGPENDING", PyVal.int 0),
  ("HAVE_SIGRELSE", PyVal.int 0),
  ("HAVE_SIGTIMEDWAIT", PyVal.int 0),
  ("HAVE_SIGWAIT", PyVal.int 0),
  ("HAVE_SIGWAITINFO", PyVal.int 0),
  ("HAVE_SNPRINTF", PyVal.int 1),
  ("HAVE_SOCKADDR_ALG", PyVal.int 0),
  ("HAVE_SOCKADDR_SA_LEN", PyVal.int 0),
  ("HAVE_SOCKADDR_STORAGE", PyVal.int 1),
  ("HAVE_SOCKETPAIR", PyVal.int 0),
  ("HAVE_SPAWN_H", PyVal.int 0),
  ("HAVE_SSIZE_T", PyVal.int 1),
  ("HAVE_STATVFS", PyVal.int 0),
  ("HAVE_STAT_TV_NSEC", PyVal.int 0),
  ("HAVE_STAT_TV_NSEC2", PyVal.int 0),
  ("HAVE_STDARG_PROTOTYPES", PyVal.int 1),
  ("HAVE_STDINT_H", PyVal.int 1),
  ("HAVE_STDLIB_H", PyVal.int 1),
  ("HAVE_STD_ATOMIC", PyVal.int 1),
  ("HAVE_STRDUP", PyVal.int 1),
  ("HAVE_STRFTIME", PyVal.int 1),
  ("HAVE_STRINGS_H", PyVal.int 1),
  ("HAVE_STRING_H", PyVal.int 1),
  ("HAVE_STRLCPY", PyVal.int 0),
  ("HAVE_STROPTS_H", PyVal.int 0),
  ("HAVE_STRSIGNAL", PyVal.int 0),
  ("HAVE_STRUCT_PASSWD_PW_GECOS", PyVal.int 0),
  ("HAVE_STRUCT_PASSWD_PW_PASSWD", PyVal.int 0),
  ("HAVE_STRUCT_STAT_ST_BIRTHTIME", PyVal.int 0),
  ("HAVE_STRUCT_STAT_ST_BLKSIZE", PyVal.int 0),
  ("HAVE_STRUCT_STAT_ST_BLOCKS", PyVal.int 0),
  ("HAVE_STRUCT_STAT_ST_FLAGS", PyVal.int 0),
  ("HAVE_STRUCT_STAT_ST_GEN", PyVal.int 0),
  ("HAVE_STRUCT_STAT_ST_RDEV", PyVal.int 1),
  ("HAVE_STRUCT_TM_TM_ZONE", PyVal.int 0),
  ("HAVE_SYMLINK", PyVal.int 0),
  ("HAVE_SYMLINKAT", PyVal.int 0),
  ("HAVE_SYNC", PyVal.int 0),
  ("HAVE_SYSCONF", PyVal.int 0),
  ("HAVE_SYSEXITS_H", PyVal.int 0),
  ("HAVE_SYS_AUDIOIO_H", PyVal.int 0),
  ("HAVE_SYS_BSDTTY_H", PyVal.int 0),
  ("HAVE_SYS_DEVPOLL_H", PyVal.int 0),
  ("HAVE_SYS_DIR_H", PyVal.int 0),
  ("HAVE_SYS_ENDIAN_H", PyVal.int 0),
  ("HAVE_SYS_EPOLL_H", PyVal.int 0),
  ("HAVE_SYS_EVENT_H", PyVal.int 0),
  ("HAVE_SYS_FILE_H", PyVal.int 1),
  ("HAVE_SYS_IOCTL_H", PyVal.int 0),
  ("HAVE_SYS_KERN_CONTROL_H", PyVal.int 0),
  ("HAVE_SYS_LOADAVG_H", PyVal.int 0),
  ("HAVE_SYS_LOCK_H", PyVal.int 0),
  ("HAVE_SYS_MEMFD_H", PyVal.int 0),
  ("HAVE_SYS_MKDEV_H", PyVal.int 0),
  ("HAVE_SYS_MMAN_H", PyVal.int 0),
  ("HAVE_SYS_MODEM_H", PyVal.int 0),
  ("HAVE_SYS_NDIR_H", PyVal.int 0),
  ("HAVE_SYS_PARAM_H", PyVal.int 1),
  ("HAVE_SYS_POLL_H", PyVal.int 0),
  ("HAVE_SYS_RANDOM_H", PyVal.int 0),
  ("HAVE_SYS_RESOURCE_H", PyVal.int 0),
  ("HAVE_SYS_SELECT_H", PyVal.int 0),
  ("HAVE_SYS_SENDFILE_H", PyVal.int 0),
  ("HAVE_SYS_SOCKET_H", PyVal.int 0),
  ("HAVE_SYS_STATVFS_H", PyVal.int 0),
  ("HAVE_SYS_STAT_H", PyVal.int 1),
  ("HAVE_SYS_SYSCALL_H", PyVal.int 0),
  ("HAVE_SYS_SYSMACROS_H", PyVal.int 0),
  ("HAVE_SYS_SYS_DOMAIN_H", PyVal.int 0),
  ("HAVE_SYS_TERMIO_H", PyVal.int 0),
  ("HAVE_SYS_TIMES_H", PyVal.int 0),
  ("HAVE_SYS_TIME_H", PyVal.int 1),
  ("HAVE_SYS_TYPES_H", PyVal.int 1),
  ("HAVE_SYS_UIO_H", PyVal.int 0),
  ("HAVE_SYS_UN_H", PyVal.int 0),
  ("HAVE_SYS_UTSNAME_H", PyVal.int 0),
  ("HAVE_SYS_WAIT_H", PyVal.int 0),
  ("HAVE_SYS_XATTR_H", PyVal.int 0),
  ("HAVE_TCGETPGRP", PyVal.int 0),
  ("HAVE_TCSETPGRP", PyVal.int 0),
  ("HAVE_TEMPNAM", PyVal.int 1),
  ("HAVE_TERMIOS_H", PyVal.int 0),
  ("HAVE_TERM_H", PyVal.int 0),
  ("HAVE_TGAMMA", PyVal.int 1),
  ("HAVE_THREAD_H", PyVal.int 0),
  ("HAVE_TIMEGM", PyVal.int 0),
  ("HAVE_TIMES", PyVal.int 0),
  ("HAVE_TMPFILE", PyVal.int 1),
  ("HAVE_TMPNAM", PyVal.int 1),
  ("HAVE_TMPNAM_R", PyVal.int 0),
  ("HAVE_TM_ZONE", PyVal.int 0),
  ("HAVE_TRUNCATE", PyVal.int 0),
  ("HAVE_TZNAME", PyVal.int 1),
  ("HAVE_UCS4_TCL", PyVal.int 0),
  ("HAVE_UNAME", PyVal.int 0),
  ("HAVE_UNISTD_H", PyVal.int 1),
  ("HAVE_UNLINKAT", PyVal.int 0),
  ("HAVE_USABLE_WCHAR_T", PyVal.int 1),
  ("HAVE_UTIL_H", PyVal.int 0),
  ("HAVE_UTIMENSAT", PyVal.int 0),
  ("HAVE_UTIMES", PyVal.int 0),
  ("HAVE_UTIME_H", PyVal.int 1),
  ("HAVE_UUID_CREATE", PyVal.int 0),
  ("HAVE_UUID_ENC_BE", PyVal.int 0),
  ("HAVE_UUID_GENERATE_TIME_SAFE", PyVal.int 0),
  ("HAVE_UUID_H", PyVal.int 0),
  ("HAVE_UUID_UUID_H", PyVal.int 0),
  ("HAVE_WAIT3", PyVal.int 0),
  ("HAVE_WAIT4", PyVal.int 0),
  ("HAVE_WAITID", PyVal.int 0),
  ("HAVE_WAITPID", PyVal.int 0),
  ("HAVE_WCHAR_H", PyVal.int 1),
  ("HAVE_WCSCOLL", PyVal.int 1),
  ("HAVE_WCSFTIME", PyVal.int 1),
  ("HAVE_WCSXFRM", PyVal.int 1),
  ("HAVE_WMEMCMP", PyVal.int 1),
  ("HAVE_WORKING_TZSET", PyVal.int 0),
  ("HAVE_WRITEV", PyVal.int 0),
  ("HAVE_WS2TCPIP_H", PyVal.int 1),
  ("HAVE_X509_VERIFY_PARAM_SET1_HOST", PyVal.int 0),
  ("HAVE_ZLIB_COPY", PyVal.int 1),
  ("HAVE__GETPTY", PyVal.int 0),
  ("HOST_GNU_TYPE", PyVal.str "x86_64-w64-mingw32"),
  ("INCLDIRSTOMAKE", PyVal.str "C:/buildroot/x86_64-1320-win32-seh-ucrt-rt_v11-rev0/mingw64/opt/include C:/buildroot/x86_64-1320-win32-seh-ucrt-rt_v11-rev0/mingw64/opt/include C:/buildroot/x86_64-1320-win32-seh-ucrt-rt_v11-rev0/mingw64/opt/include/python3.9 C:/buildroot/x86_64-1320-win32-seh-ucrt-rt_v11-rev0/mingw64/opt/include/python3.9"),
  ("INCLUDEDIR", PyVal.str "C:/buildroot/x86_64-1320-win32-seh-ucrt-rt_v11-rev0/mingw64/opt/include"),
  ("INCLUDEPY", PyVal.str "C:/buildroot/x86_64-1320-win32-seh-ucrt-rt_v11-rev0/mingw64/opt/include/python3.9"),
  ("INSTALL", PyVal.str "/usr/bin/install -c"),
  ("INSTALL_DATA", PyVal.str "/usr/bin/install -c -m 644"),
  ("INSTALL_PROGRAM", PyVal.str "/usr/bin/install -c"),
  ("INSTALL_SCRIPT", PyVal.str "/usr/bin/install -c"),
  ("INSTALL_SHARED", PyVal.str "/usr/bin/install -c -m 755"),
  ("INSTSONAME", PyVal.str "libpython3.9.dll.a"),
  ("IO_H", PyVal.str "Modules/_io/_iomodule.h"),
  ("IO_OBJS", PyVal.str "\\"),
  ("LDCXXSHARED", PyVal.str "x86_64-w64-mingw32-c++ -shared -Wl,--enable-auto-image-base"),
  ("LDFLAGS", PyVal.str "-pipe -fno-ident -L/c/buildroot/x86_64-1320-win32-seh-ucrt-rt_v11-rev0/mingw64/opt/lib -L/c/buildroot/prerequisites/x86_64-zlib-static/lib -L/c/buildroot/prerequisites/x86_64-w64-mingw32-static/lib -LC:/buildroot/prerequisites/x86_64-zlib-static/lib -LC:/buildroot/x86_64-1320-win32-seh-ucrt-rt_v11-rev0/mingw64/opt/lib"),
  ("LDLIBRARY", PyVal.str "libpython3.9.dll.a"),
  ("LDLIBRARYDIR", PyVal.str ""),
  ("LDSHARED", PyVal.str "x86_64-w64-mingw32-gcc -shared -Wl,--enable-auto-image-base -pipe -fno-ident -L/c/buildroot/x86_64-1320-win32-seh-ucrt-rt_v11-rev0/mingw64/opt/lib -L/c/buildroot/prerequisites/x86_64-zlib-static/lib -L/c/buildroot/prerequisites/x86_64-w64-mingw32-static/lib -LC:/buildroot/prerequisites/x86_64-zlib-static/lib -LC:/buildroot/x86_64-1320-win32-seh-ucrt-rt_v11-rev0/mingw64/opt/lib"),
  ("LDVERSION", PyVal.str "3.9"),
  ("LIBC", PyVal.str ""),
  ("LIBDEST", PyVal.str "C:/buildroot/x86_64-1320-win32-seh-ucrt-rt_v11-rev0/mingw64/opt/lib/python3.9"),
  ("LIBDIR", PyVal.str "C:/buildroot/x86_64-1320-win32-seh-ucrt-rt_v11-rev0/mingw64/opt/lib"),
  ("LIBFFI_INCLUDEDIR", PyVal.str ""),
  ("LIBM", PyVal.str "-lm"),
  ("LIBOBJDIR", PyVal.str "Python/"),
  ("LIBOBJS", PyVal.str ""),
  ("LIBPC", PyVal.str "C:/buildroot/x86_64-1320-win32-seh-ucrt-rt_v11-rev0/mingw64/opt/lib/pkgconfig"),
  ("LIBPL", PyVal.str "C:/buildroot/x86_64-1320-win32-seh-ucrt-rt_v11-rev0/mingw64/opt/lib/python3.9/config-3.9"),
  ("LIBPYTHON", PyVal.str "-lpython3.9"),
  ("LIBRARY", PyVal.str "libpython3.9.a"),
  ("LIBRARY_OBJS", PyVal.str "\\"),
  ("LIBRARY_OBJS_OMIT_FROZEN", PyVal.str "\\"),
  ("LIBS", PyVal.str "-lm -lversion -lshlwapi"),
  ("LIBSUBDIRS", PyVal.str "tkinter tkinter/test tkinter/test/test_tkinter \\"),
  ("LINKCC", PyVal.str "x86_64-w64-mingw32-gcc"),
  ("LINKFORSHARED", PyVal.str "-Wl,--stack,2000000"),
  ("LIPO_32BIT_FLAGS", PyVal.str ""),
  ("LIPO_INTEL64_FLAGS", PyVal.str ""),
  ("LLVM_PROF_ERR", PyVal.str "no"),
  ("LLVM_PROF_FILE", PyVal.str ""),
  ("LLVM_PROF_MERGER", PyVal.str "true"),
  ("LN", PyVal.str "ln"),
  ("LOCALMODLIBS", PyVal.str "-lws2_32"),
  ("MACHDEP", PyVal.str "win32"),
  ("MACHDEP_OBJS", PyVal.str "PC/dl_nt.o"),
  ("MACHDESTLIB", PyVal.str "C:/buildroot/x86_64-1320-win32-seh-ucrt-rt_v11-rev0/mingw64/opt/lib/python3.9"),
  ("MACOSX_DEPLOYMENT_TARGET", PyVal.str ""),
  ("MAINCC", PyVal.str "x86_64-w64-mingw32-gcc"),
  ("MAJOR_IN_MKDEV", PyVal.int 0),
  ("MAJOR_IN_SYSMACROS", PyVal.int 0),
  ("MAKESETUP", PyVal.str "../../../src/Python-3.9.10/Modules/makesetup"),
  ("MANDIR", PyVal.str "C:/buildroot/x86_64-1320-win32-seh-ucrt-rt_v11-rev0/mingw64/opt/share/man"),
  ("MKDIR_P", PyVal.str "/usr/bin/mkdir -p"),
  ("MODBUILT_NAMES", PyVal.str "nt  winreg  msvcrt  _winapi  errno  _sre  _codecs  _weakref  _functools  _operator  _collections  _abc  itertools  atexit  _signal  _stat  time  _thread  _locale  _io  faulthandler  _tracemalloc  _peg_parser  _symtable  xxsubtype"),
  ("MODDISABLED_NAMES", PyVal.str ""),
  ("MODLIBS", PyVal.str "-lws2_32"),
  ("MODOBJS", PyVal.str "Modules/posixmodule.o  Modules/winreg.o  Modules/msvcrtmodule.o  Modules/_winapi.o  Modules/errnomodule.o  Modules/_sre.o  Modules/_codecsmodule.o  Modules/_weakref.o  Modules/_functoolsmodule.o  Modules/_operator.o  Modules/_collectionsmodule.o  Modules/_abc.o  Modules/itertoolsmodule.o  Modules/atexitmodule.o  Modules/signalmodule.o  Modules/_stat.o  Modules/timemodule.o  Modules/_threadmodule.o  Modules/_localemodule.o  Modules/_iomodule.o Modules/iobase.o Modules/fileio.o Modules/bytesio.o Modules/bufferedio.o Modules/textio.o Modules/stringio.o Modules/winconsoleio.o  Modules/faulthandler.o  Modules/_tracemalloc.o  Modules/_peg_parser.o  Modules/symtablemodule.o  Modules/xxsubtype.o"),
  ("MODULE_OBJS", PyVal.str "\\"),
  ("MULTIARCH", PyVal.str ""),
  ("MULTIARCH_CPPFLAGS", PyVal.str ""),
  ("MVWDELCH_IS_EXPRESSION", PyVal.int 0),
  ("NCURSESW_INCLUDEDIR", PyVal.str ""),
  ("NO_AS_NEEDED", PyVal.str "-Wl,--no-as-needed"),
  ("NT_THREADS", PyVal.int 1),
  ("OBJECT_OBJS", PyVal.str "\\"),
  ("OPENSSL_INCLUDES", PyVal.str ""),
  ("OPENSSL_LDFLAGS", PyVal.str ""),
  ("OPENSSL_LIBS", PyVal.str ""),
  ("OPT", PyVal.str "-DNDEBUG -g -fwrapv -O3 -Wall"),
  ("OTHER_LIBTOOL_OPT", PyVal.str ""),
  ("PACKAGE_BUGREPORT", PyVal.int 0),
  ("PACKAGE_NAME", PyVal.int 0),
  ("PACKAGE_STRING", PyVal.int 0),
  ("PACKAGE_TARNAME", PyVal.int 0),
  ("PACKAGE_URL", PyVal.int 0),
  ("PACKAGE_VERSION", PyVal.int 0),
  ("PARSER_HEADERS", PyVal.str "\\"),
  ("PARSER_OBJS", PyVal.str "\\ \\ Parser/myreadline.o Parser/parsetok.o Parser/tokenizer.o"),
  ("PEGEN_HEADERS", PyVal.str "\\"),
  ("PEGEN_OBJS", PyVal.str "\\"),
  ("PGO_PROF_GEN_FLAG", PyVal.str "-fprofile-generate"),
  ("PGO_PROF_USE_FLAG", PyVal.str "-fprofile-use -fprofile-correction"),
  ("PLATLIBDIR", PyVal.str "lib"),
  ("POBJS", PyVal.str "\\"),
  ("POSIX_SEMAPHORES_NOT_ENABLED", PyVal.int 1),
  ("PROFILE_TASK", PyVal.str "-m test --pgo"),
  ("PTHREAD_KEY_T_IS_COMPATIBLE_WITH_INT", PyVal.int 0),
  ("PTHREAD_SYSTEM_SCHED_SUPPORTED", PyVal.int 0),
  ("PURIFY", PyVal.str ""),
  ("PY3LIBRARY", PyVal.str ""),
  ("PYD_PLATFORM_TAG", PyVal.str "mingw_x86_64_ucrt"),
  ("PYLONG_BITS_IN_DIGIT", PyVal.int 0),
  ("PYTHON", PyVal.str "python.exe"),
  ("PYTHONFRAMEWORK", PyVal.str ""),
  ("PYTHONFRAMEWORKDIR", PyVal.str "no-framework"),
  ("PYTHONFRAMEWORKINSTALLDIR", PyVal.str ""),
  ("PYTHONFRAMEWORKPREFIX", PyVal.str ""),
  ("PYTHONPATH", PyVal.str ""),
  ("PYTHON_FOR_BUILD", PyVal.str "./python.exe -E"),
  ("PYTHON_HEADERS", PyVal.str "\\"),
  ("PYTHON_OBJS", PyVal.str "\\"),
  ("PY_BUILTIN_HASHLIB_HASHES", PyVal.str "\"md5,sha1,sha256,sha512,sha3,blake2\""),
  ("PY_BUILTIN_MODULE_CFLAGS", PyVal.str "-Wno-unused-result -Wsign-compare -DNDEBUG -g -fwrapv -O3 -Wall -O2 -pipe -fno-ident -I/c/buildroot/x86_64-1320-win32-seh-ucrt-rt_v11-rev0/mingw64/opt/include -I/c/buildroot/prerequisites/x86_64-zlib-static/include -I/c/buildroot/prerequisites/x86_64-w64-mingw32-static/include -D__USE_MINGW_ANSI_STDIO=1 -std=c99 -Wextra -Wno-unused-result -Wno-unused-parameter -Wno-missing-field-initializers -Wstrict-prototypes -Werror=implicit-function-declaration -fvisibility=hidden -D_WIN32_WINNT=0x0601 -DMS_DLL_ID=\x27\"3.9\"\x27 -fprofile-use -fprofile-correction -I../../../src/Python-3.9.10/Include/internal -IObjects -IInclude -IPython -I. -I../../../src/Python-3.9.10/Include -I../../../src/Python-3.9.10/PC  -I/c/buildroot/x86_64-1320-win32-seh-ucrt-rt_v11-rev0/mingw64/opt/include -I/c/buildroot/prerequisites/x86_64-zlib-static/include -I/c/buildroot/prerequisites/x86_64-w64-mingw32-static/include -IC:/buildroot/x86_64-1320-win32-seh-ucrt-rt_v11-rev0/mingw64/opt/include -IC:/buildroot/x86_64-1320-win32-seh-ucrt-rt_v11-rev0/mingw64/opt/include/ncursesw -IC:/buildroot/prerequisites/x86_64-zlib-static/include -I. -DPy_BUILD_CORE_BUILTIN"),
  ("PY_CFLAGS", PyVal.str "-Wno-unused-result -Wsign-compare -DNDEBUG -g -fwrapv -O3 -Wall -O2 -pipe -fno-ident -I/c/buildroot/x86_64-1320-win32-seh-ucrt-rt_v11-rev0/mingw64/opt/include -I/c/buildroot/prerequisites/x86_64-zlib-static/include -I/c/buildroot/prerequisites/x86_64-w64-mingw32-static/include -D__USE_MINGW_ANSI_STDIO=1"),
  ("PY_CFLAGS_NODIST", PyVal.str "-std=c99 -Wextra -Wno-unused-result -Wno-unused-parameter -Wno-missing-field-initializers -Wstrict-prototypes -Werror=implicit-function-declaration -fvisibility=hidden -D_WIN32_WINNT=0x0601 -DMS_DLL_ID=\x27\"3.9\"\x27 -fprofile-use -fprofile-correction -I../../../src/Python-3.9.10/Include/internal"),
  ("PY_COERCE_C_LOCALE", PyVal.int 0),
  ("PY_CORE_CFLAGS", PyVal.str "-Wno-unused-result -Wsign-compare -DNDEBUG -g -fwrapv -O3 -Wall -O2 -pipe -fno-ident -I/c/buildroot/x86_64-1320-win32-seh-ucrt-rt_v11-rev0/mingw64/opt/include -I/c/buildroot/prerequisites/x86_64-zlib-static/include -I/c/buildroot/prerequisites/x86_64-w64-mingw32-static/include -D__USE_MINGW_ANSI_STDIO=1 -std=c99 -Wextra -Wno-unused-result -Wno-unused-parameter -Wno-missing-field-initializers -Wstrict-prototypes -Werror=implicit-function-declaration -fvisibility=hidden -D_WIN32_WINNT=0x0601 -DMS_DLL_ID=\x27\"3.9\"\x27 -fprofile-use -fprofile-correction -I../../../src/Python-3.9.10/Include/internal -IObjects -IInclude -IPython -I. -I../../../src/Python-3.9.10/Include -I../../../src/Python-3.9.10/PC  -I/c/buildroot/x86_64-1320-win32-seh-ucrt-rt_v11-rev0/mingw64/opt/include -I/c/buildroot/prerequisites/x86_64-zlib-static/include -I/c/buildroot/prerequisites/x86_64-w64-mingw32-static/include -IC:/buildroot/x86_64-1320-win32-seh-ucrt-rt_v11-rev0/mingw64/opt/include -IC:/buildroot/x86_64-1320-win32-seh-ucrt-rt_v11-rev0/mingw64/opt/include/ncursesw -IC:/buildroot/prerequisites/x86_64-zlib-static/include -I. -DPy_BUILD_CORE"),
  ("PY_CORE_LDFLAGS", PyVal.str "-pipe -fno-ident -L/c/buildroot/x86_64-1320-win32-seh-ucrt-rt_v11-rev0/mingw64/opt/lib -L/c/buildroot/prerequisites/x86_64-zlib-static/lib -L/c/buildroot/prerequisites/x86_64-w64-mingw32-static/lib -LC:/buildroot/prerequisites/x86_64-zlib-static/lib -LC:/buildroot/x86_64-1320-win32-seh-ucrt-rt_v11-rev0/mingw64/opt/lib"),
  ("PY_CPPFLAGS", PyVal.str "-IObjects -IInclude -IPython -I. -I../../../src/Python-3.9.10/Include -I../../../src/Python-3.9.10/PC  -I/c/buildroot/x86_64-1320-win32-seh-ucrt-rt_v11-rev0/mingw64/opt/include -I/c/buildroot/prerequisites/x86_64-zlib-static/include -I/c/buildroot/prerequisites/x86_64-w64-mingw32-static/include -IC:/buildroot/x86_64-1320-win32-seh-ucrt-rt_v11-rev0/mingw64/opt/include -IC:/buildroot/x86_64-1320-win32-seh-ucrt-rt_v11-rev0/mingw64/opt/include/ncursesw -IC:/buildroot/prerequisites/x86_64-zlib-static/include -I."),
  ("PY_FORMAT_SIZE_T", PyVal.str "\"z\""),
  ("PY_LDFLAGS", PyVal.str "-pipe -fno-ident -L/c/buildroot/x86_64-1320-win32-seh-ucrt-rt_v11-rev0/mingw64/opt/lib -L/c/buildroot/prerequisites/x86_64-zlib-static/lib -L/c/buildroot/prerequisites/x86_64-w64-mingw32-static/lib -LC:/buildroot/prerequisites/x86_64-zlib-static/lib -LC:/buildroot/x86_64-1320-win32-seh-ucrt-rt_v11-rev0/mingw64/opt/lib"),
  ("PY_LDFLAGS_NODIST", PyVal.str ""),
  ("PY_SSL_DEFAULT_CIPHERS", PyVal.int 1),
  ("PY_SSL_DEFAULT_CIPHER_STRING", PyVal.int 0),
  ("PY_STDMODULE_CFLAGS", PyVal.str "-Wno-unused-result -Wsign-compare -DNDEBUG -g -fwrapv -O3 -Wall -O2 -pipe -fno-ident -I/c/buildroot/x86_64-1320-win32-seh-ucrt-rt_v11-rev0/mingw64/opt/include -I/c/buildroot/prerequisites/x86_64-zlib-static/include -I/c/buildroot/prerequisites/x86_64-w64-mingw32-static/include -D__USE_MINGW_ANSI_STDIO=1 -std=c99 -Wextra -Wno-unused-result -Wno-unused-parameter -Wno-missing-field-initializers -Wstrict-prototypes -Werror=implicit-function-declaration -fvisibility=hidden -D_WIN32_WINNT=0x0601 -DMS_DLL_ID=\x27\"3.9\"\x27 -fprofile-use -fprofile-correction -I../../../src/Python-3.9.10/Include/internal -IObjects -IInclude -IPython -I. -I../../../src/Python-3.9.10/Include -I../../../src/Python-3.9.10/PC  -I/c/buildroot/x86_64-1320-win32-seh-ucrt-rt_v11-rev0/mingw64/opt/include -I/c/buildroot/prerequisites/x86_64-zlib-static/include -I/c/buildroot/prerequisites/x86_64-w64-mingw32-static/include -IC:/buildroot/x86_64-1320-win32-seh-ucrt-rt_v11-rev0/mingw64/opt/include -IC:/buildroot/x86_64-1320-win32-seh-ucrt-rt_v11-rev0/mingw64/opt/include/ncursesw -IC:/buildroot/prerequisites/x86_64-zlib-static/include -I."),
  ("Py_DEBUG", PyVal.int 0),
  ("Py_ENABLE_SHARED", PyVal.int 1),
  ("Py_HASH_ALGORITHM", PyVal.int 0),
  ("Py_TRACE_REFS", PyVal.int 0),
  ("QUICKTESTOPTS", PyVal.str "-x test_subprocess test_io test_lib2to3 \\"),
  ("RCFLAGS", PyVal.str "-DFIELD3=10150 -O COFF --target=pe-x86-64"),
  ("READELF", PyVal.str "readelf"),
  ("RESSRCDIR", PyVal.str "Mac/Resources/framework"),
  ("RETSIGTYPE", PyVal.str "void"),
  ("RUNSHARED", PyVal.str ""),
  ("SCRIPTDIR", PyVal.str "C:/buildroot/x86_64-1320-win32-seh-ucrt-rt_v11-rev0/mingw64/opt/lib"),
  ("SETPGRP_HAVE_ARG", PyVal.int 0),
  ("SHELL", PyVal.str "/bin/sh"),
  ("SHLIBS", PyVal.str "-lm -lversion -lshlwapi"),
  ("SHLIB_SUFFIX", PyVal.str ".pyd"),
  ("SHM_NEEDS_LIBRT", PyVal.int 0),
  ("SIGNED_RIGHT_SHIFT_ZERO_FILLS", PyVal.int 0),
  ("SITEPATH", PyVal.str ""),
  ("SIZEOF_DOUBLE", PyVal.int 8),
  ("SIZEOF_FLOAT", PyVal.int 4),
  ("SIZEOF_FPOS_T", PyVal.int 8),
  ("SIZEOF_INT", PyVal.int 4),
  ("SIZEOF_LONG", PyVal.int 4),
  ("SIZEOF_LONG_DOUBLE", PyVal.int 16),
  ("SIZEOF_LONG_LONG", PyVal.int 8),
  ("SIZEOF_OFF_T", PyVal.int 8),
  ("SIZEOF_PID_T", PyVal.int 8),
  ("SIZEOF_PTHREAD_KEY_T", PyVal.int 0),
  ("SIZEOF_PTHREAD_T", PyVal.int 0),
  ("SIZEOF_SHORT", PyVal.int 2),
  ("SIZEOF_SIZE_T", PyVal.int 8),
  ("SIZEOF_TIME_T", PyVal.int 8),
  ("SIZEOF_UINTPTR_T", PyVal.int 8),
  ("SIZEOF_VOID_P", PyVal.int 8),
  ("SIZEOF_WCHAR_T", PyVal.int 2),
  ("SIZEOF__BOOL", PyVal.int 1),
  ("SOABI", PyVal.str "cpython-39"),
  ("SRCDIRS", PyVal.str "Parser Parser/pegen Objects Python Modules Modules/_io Programs PC"),
  ("SRC_GDB_HOOKS", PyVal.str "../../../src/Python-3.9.10/Tools/gdb/libpython.py"),
  ("STDC_HEADERS", PyVal.int 1),
  ("STRICT_SYSV_CURSES", PyVal.str "/* Don\x27t use ncurses extensions */"),
  ("STRIPFLAG", PyVal.str "-s"),
  ("SUBDIRS", PyVal.str ""),
  ("SUBDIRSTOO", PyVal.str "Include Lib Misc"),
  ("SYSLIBS", PyVal.str "-lm"),
  ("SYS_SELECT_WITH_SYS_TIME", PyVal.int 0),
  ("TCLTK_INCLUDES", PyVal.str ""),
  ("TCLTK_LIBS", PyVal.str ""),
  ("TESTOPTS", PyVal.str ""),
  ("TESTPATH", PyVal.str ""),
  ("TESTPYTHON", PyVal.str "./python.exe"),
  ("TESTPYTHONOPTS", PyVal.str ""),
  ("TESTRUNNER", PyVal.str "./python.exe ../../../src/Python-3.9.10/Tools/scripts/run_tests.py"),
  ("TESTTIMEOUT", PyVal.int 1200),
  ("TIMEMODULE_LIB", PyVal.int 0),
  ("TIME_WITH_SYS_TIME", PyVal.int 1),
  ("TM_IN_SYS_TIME", PyVal.int 0),
  ("TZPATH", PyVal.str "/usr/share/zoneinfo:/usr/lib/zoneinfo:/usr/share/lib/zoneinfo:/etc/zoneinfo"),
  ("UNICODE_DEPS", PyVal.str "\\"),
  ("UNIVERSALSDK", PyVal.str ""),
  ("UPDATE_FILE", PyVal.str "python3 ../../../src/Python-3.9.10/Tools/scripts/update_file.py"),
  ("USE_COMPUTED_GOTOS", PyVal.int 0),
  ("VENVLAUNCHERDIR", PyVal.str "C:/buildroot/x86_64-1320-win32-seh-ucrt-rt_v11-rev0/mingw64/opt/lib/python3.9/venv/scripts/nt"),
  ("VERSION", PyVal.str "3.9"),
  ("VPATH", PyVal.str "C:/buildroot/src/Python-3.9.10"),
  ("VPATH_b2h", PyVal.str "C:/buildroot/src/Python-3.9.10"),
  ("WINDOW_HAS_FLAGS", PyVal.int 0),
  ("WINDRES", PyVal.str "windres"),
  ("WITH_DECIMAL_CONTEXTVAR", PyVal.int 1),
  ("WITH_DOC_STRINGS", PyVal.int 1),
  ("WITH_DTRACE", PyVal.int 0),
  ("WITH_DYLD", PyVal.int 0),
  ("WITH_LIBINTL", PyVal.int 0),
  ("WITH_NEXT_FRAMEWORK", PyVal.int 0),
  ("WITH_PYMALLOC", PyVal.int 1),
  ("WITH_VALGRIND", PyVal.int 0),
  ("X87_DOUBLE_ROUNDING", PyVal.int 0),
  ("XMLLIBSUBDIRS", PyVal.str "xml xml/dom xml/etree xml/parsers xml/sax"),
  ("abs_builddir", PyVal.str "C:/buildroot/x86_64-1320-win32-seh-ucrt-rt_v11-rev0/build/Python-3.9.10"),
  ("abs_builddir_b2h", PyVal.str "C:/buildroot/x86_64-1320-win32-seh-ucrt-rt_v11-rev0/build/Python-3.9.10"),
  ("abs_srcdir", PyVal.str "C:/buildroot/src/Python-3.9.10"),
  ("abs_srcdir_b2h", PyVal.str "C:/buildroot/src/Python-3.9.10"),
  ("datarootdir", PyVal.str "C:/buildroot/x86_64-1320-win32-seh-ucrt-rt_v11-rev0/mingw64/opt/share"),
  ("exec_prefix", PyVal.str "C:/buildroot/x86_64-1320-win32-seh-ucrt-rt_v11-rev0/mingw64/opt"),
  ("prefix", PyVal.str "C:/buildroot/x86_64-1320-win32-seh-ucrt-rt_v11-rev0/mingw64/opt"),
  ("prefix_b2h", PyVal.str "C:/buildroot/x86_64-1320-win32-seh-ucrt-rt_v11-rev0/mingw64/opt"),
  ("srcdir", PyVal.str "C:/buildroot/src/Python-3.9.10"),
  ("srcdir_b2h", PyVal.str "C:/buildroot/src/Python-3.9.10")
]

/-- A small auxiliary table (every listed key mapped to the string
`"p/x"`), used to exhibit the amended idempotence property on a concrete
instance. -/
def tinyT : List (String × PyVal) := keys_to_replace.map (fun k => (k, PyVal.str "p/x"))

/-- `tinyT` after one rewrite of `"p"` to `"q"`. -/
def tinyT1 : List (String × PyVal) := keys_to_replace.map (fun k => (k, PyVal.str "q/x"))

/-! ## Basic lemmas about lookup and update -/

theorem lookupV_updateV_self (m : List (String × PyVal)) (k : String) (v : PyVal) :
    lookupV (updateV m k v) k = (lookupV m k).map (fun _ => v) := by
  induction m with
  | nil => rfl
  | cons kv rest ih =>
    by_cases h : kv.1 = k
    · simp [updateV, lookupV, h]
    · simp [updateV, lookupV, h, ih]

theorem lookupV_updateV_ne (m : List (String × PyVal)) {k k' : String} (v : PyVal)
    (h : k' ≠ k) : lookupV (updateV m k v) k' = lookupV m k' := by
  induction m with
  | nil => rfl
  | cons kv rest ih =>
    by_cases hk : kv.1 = k
    · have hne2 : ¬ k = k' := fun e => h e.symm
      simp [updateV, lookupV, hk, hne2]
    · simp only [updateV, if_neg hk]
      by_cases hk' : kv.1 = k'
      · simp [lookupV, hk']
      · simp [lookupV, hk', ih]

theorem updateV_self_eq {m : List (String × PyVal)} {k : String} {v : PyVal}
    (h : lookupV m k = some v) : updateV m k v = m := by
  induction m with
  | nil => rfl
  | cons kv rest ih =>
    obtain ⟨k1, v1⟩ := kv
    by_cases hk : k1 = k
    · simp only [lookupV, if_pos hk, Option.some.injEq] at h
      simp [updateV, hk, h]
    · simp only [lookupV, if_neg hk] at h
      simp [updateV, hk, ih h]

/-! ## Lemmas about one loop iteration -/

theorem replaceStep_self {oldP newP : String} {m m₂ : List (String × PyVal)} {k : String}
    (h : replaceStep oldP newP m k = some m₂) :
    ∃ s, lookupV m k = some (PyVal.str s) ∧
      lookupV m₂ k = some (PyVal.str (pyStrReplace s oldP newP)) := by
  cases hl : lookupV m k with
  | none => simp [replaceStep, hl] at h
  | some v =>
    cases v with
    | str s =>
      simp only [replaceStep, hl, Option.some.injEq] at h
      subst h
      refine ⟨s, rfl, ?_⟩
      rw [lookupV_updateV_self, hl]
      rfl
    | int z => simp [replaceStep, hl] at h

theorem replaceStep_ne {oldP newP : String} {m m₂ : List (String × PyVal)} {k k' : String}
    (h : replaceStep oldP newP m k = some m₂) (hne : k' ≠ k) :
    lookupV m₂ k' = lookupV m k' := by
  cases hl : lookupV m k with
  | none => simp [replaceStep, hl] at h
  | some v =>
    cases v with
    | str s =>
      simp only [replaceStep, hl, Option.some.injEq] at h
      subst h
      exact lookupV_updateV_ne m _ hne
    | int z => simp [replaceStep, hl] at h

theorem replaceStep_some (oldP newP : String) {m : List (String × PyVal)} {k : String}
    {s : String} (h : lookupV m k = some (PyVal.str s)) :
    replaceStep oldP newP m k = some (updateV m k (PyVal.str (pyStrReplace s oldP newP))) := by
  simp [replaceStep, h]

theorem replaceStep_str {oldP newP : String} {m m₂ : List (String × PyVal)} {k : String}
    (h : replaceStep oldP newP m k = some m₂) (k' : String)
    (hs : ∃ s, lookupV m k' = some (PyVal.str s)) :
    ∃ s, lookupV m₂ k' = some (PyVal.str s) := by
  by_cases hk : k' = k
  · subst hk
    obtain ⟨s, _, h2⟩ := replaceStep_self h
    exact ⟨_, h2⟩
  · obtain ⟨s, hs⟩ := hs
    exact ⟨s, by rw [replaceStep_ne h hk]; exact hs⟩

/-! ## Lemmas about the loop -/

theorem applySteps_some {oldP newP : String} :
    ∀ {ks : List String} {m : List (String × PyVal)},
      (∀ k ∈ ks, ∃ s, lookupV m k = some (PyVal.str s)) →
      ∃ m₂, applySteps oldP newP ks m = some m₂ := by
  intro ks
  induction ks with
  | nil => exact fun _ => ⟨_, rfl⟩
  | cons a ks ih =>
    intro m h
    obtain ⟨s, hs⟩ := h a (by simp)
    have hstep := replaceStep_some oldP newP hs
    obtain ⟨m₂, hm₂⟩ := ih (fun k hk => replaceStep_str hstep k (h k (by simp [hk])))
    exact ⟨m₂, by simp [applySteps, hstep, hm₂]⟩

theorem applySteps_frame {oldP newP : String} :
    ∀ {ks : List String} {m m₂ : List (String × PyVal)},
      applySteps oldP newP ks m = some m₂ →
      ∀ k, k ∉ ks → lookupV m₂ k = lookupV m k := by
  intro ks
  induction ks with
  | nil =>
    intro m m₂ h k _
    simp only [applySteps, Option.some.injEq] at h
    rw [h]
  | cons a ks ih =>
    intro m m₂ h k hk
    cases hstep : replaceStep oldP newP m a with
    | none => simp [applySteps, hstep] at h
    | some m₁ =>
      simp only [applySteps, hstep] at h
      have h1 : lookupV m₂ k = lookupV m₁ k := ih h k (fun hm => hk (by simp [hm]))
      have h2 : lookupV m₁ k = lookupV m k :=
        replaceStep_ne hstep (fun e => hk (by simp [e]))
      rw [h1, h2]

theorem applySteps_val {oldP newP : String} :
    ∀ {ks : List String} {m m₂ : List (String × PyVal)},
      ks.Nodup → applySteps oldP newP ks m = some m₂ →
      ∀ k ∈ ks, ∃ s, lookupV m k = some (PyVal.str s) ∧
        lookupV m₂ k = some (PyVal.str (pyStrReplace s oldP newP)) := by
  intro ks
  induction ks with
  | nil => intro m m₂ _ _ k hk; simp at hk
  | cons a ks ih =>
    intro m m₂ hnd h k hk
    rw [List.nodup_cons] at hnd
    cases hstep : replaceStep oldP newP m a with
    | none => simp [applySteps, hstep] at h
    | some m₁ =>
      simp only [applySteps, hstep] at h
      rcases List.mem_cons.mp hk with rfl | hmem
      · obtain ⟨s, h1, h2⟩ := replaceStep_self hstep
        refine ⟨s, h1, ?_⟩
        rw [applySteps_frame h k hnd.1]
        exact h2
      · have hne : k ≠ a := fun e => hnd.1 (e ▸ hmem)
        obtain ⟨s, h1, h2⟩ := ih hnd.2 h k hmem
        refine ⟨s, ?_, h2⟩
        rw [← replaceStep_ne hstep hne]
        exact h1

theorem applySteps_id {oldP newP : String} :
    ∀ {ks : List String} {m : List (String × PyVal)},
      (∀ k ∈ ks, ∃ s, lookupV m k = some (PyVal.str s) ∧ pyStrReplace s oldP newP = s) →
      applySteps oldP newP ks m = some m := by
  intro ks
  induction ks with
  | nil => exact fun _ => rfl
  | cons a ks ih =>
    intro m h
    obtain ⟨s, hs, hid⟩ := h a (by simp)
    have hstep := replaceStep_some oldP newP hs
    rw [hid] at hstep
    rw [updateV_self_eq hs] at hstep
    simp only [applySteps, hstep]
    exact ih (fun k hk => h k (by simp [hk]))

/-! ## Occurrence (substring) machinery -/

theorem infOfPfx {α : Type} {l₁ l₂ : List α} (h : l₁ <+: l₂) : l₁ <:+: l₂ := by
  obtain ⟨t, ht⟩ := h
  exact ⟨[], t, by simpa using ht⟩

theorem infConsTail {α : Type} {old l : List α} {c : α} (h : old <:+: l) :
    old <:+: c :: l := by
  obtain ⟨u, v, huv⟩ := h
  exact ⟨c :: u, v, by simp [huv]⟩

theorem infConsCases {α : Type} {old l : List α} {c : α} (h : old <:+: c :: l) :
    old <+: c :: l ∨ old <:+: l := by
  obtain ⟨u, v, huv⟩ := h
  cases u with
  | nil => exact Or.inl ⟨v, by simpa using huv⟩
  | cons d u =>
    injection huv with h1 h2
    exact Or.inr ⟨u, v, h2⟩

theorem pfxAppendCases {α : Type} {old a b : List α} (h : old <+: a ++ b) :
    old <+: a ∨ ∃ y, old = a ++ y ∧ y <+: b := by
  induction a generalizing old with
  | nil => exact Or.inr ⟨old, rfl, by simpa using h⟩
  | cons c a ih =>
    cases old with
    | nil => exact Or.inl ⟨c :: a, rfl⟩
    | cons d old =>
      obtain ⟨t, ht⟩ := h
      rw [List.cons_append, List.cons_append] at ht
      injection ht with h1 h2
      subst h1
      rcases ih ⟨t, h2⟩ with h3 | ⟨y, rfl, hy⟩
      · obtain ⟨u, hu⟩ := h3
        exact Or.inl ⟨u, by rw [List.cons_append, hu]⟩
      · exact Or.inr ⟨y, by rw [List.cons_append], hy⟩

theorem infAppendCases {α : Type} {old a b : List α} (h : old <:+: a ++ b) :
    old <:+: a ∨ old <:+: b ∨
      ∃ x y, old = x ++ y ∧ x ≠ [] ∧ y ≠ [] ∧ x <:+ a ∧ y <+: b := by
  induction a with
  | nil => exact Or.inr (Or.inl (by simpa using h))
  | cons c a ih =>
    rw [List.cons_append] at h
    rcases infConsCases h with hp | hi
    · rw [← List.cons_append] at hp
      rcases pfxAppendCases hp with h1 | ⟨y, rfl, hy⟩
      · exact Or.inl (infOfPfx h1)
      · cases y with
        | nil => exact Or.inl ⟨[], [], by simp⟩
        | cons e y =>
          exact Or.inr (Or.inr ⟨c :: a, e :: y, rfl, by simp, by simp, ⟨[], rfl⟩, hy⟩)
    · rcases ih hi with h1 | h2 | ⟨x, y, hxy, hx, hy, hsuf, hpre⟩
      · exact Or.inl (infConsTail h1)
      · exact Or.inr (Or.inl h2)
      · obtain ⟨w, hw⟩ := hsuf
        exact Or.inr (Or.inr ⟨x, y, hxy, hx, hy, ⟨c :: w, by rw [List.cons_append, hw]⟩, hpre⟩)

/-- No nonempty proper tail-part of `old` (that is, `old.drop k` for
`0 < k < old.length`) starts the list `p`.  Used to rule out occurrences
of `old` that would straddle the boundary between an inserted
replacement and the following text. -/
abbrev dropFree (old p : List Char) : Prop :=
  ∀ k < old.length, 0 < k → ¬ (old.drop k <+: p)

/-- No nonempty proper front-part of `old` (that is, `old.take k` for
`0 < k < old.length`) ends the list `p`.  Used to rule out occurrences
of `old` that would straddle the boundary between a concrete segment and
a following inserted replacement. -/
abbrev takeFree (old p : List Char) : Prop :=
  ∀ k < old.length, 0 < k → ¬ (old.take k <:+ p)

theorem goodNew {old new s : List Char} (h1 : ¬ old <:+: new) (h2 : ¬ old <:+: s)
    (h3 : dropFree old s) : ¬ old <:+: new ++ s := by
  intro h
  rcases infAppendCases h with ha | hb | ⟨x, y, hxy, hx, hy, _, hpre⟩
  · exact h1 ha
  · exact h2 hb
  · have hk : x.length < old.length := by
      rw [hxy, List.length_append]
      have := List.length_pos.mpr hy
      omega
    have hdrop : old.drop x.length = y := by rw [hxy]; exact List.drop_left _ _
    exact h3 x.length hk (List.length_pos.mpr hx) (hdrop ▸ hpre)

theorem goodConcrete {old p s : List Char} (h1 : ¬ old <:+: p) (h2 : takeFree old p)
    (h3 : ¬ old <:+: s) : ¬ old <:+: p ++ s := by
  intro h
  rcases infAppendCases h with ha | hb | ⟨x, y, hxy, hx, hy, hsuf, _⟩
  · exact h1 ha
  · exact h3 hb
  · have hk : x.length < old.length := by
      rw [hxy, List.length_append]
      have := List.length_pos.mpr hy
      omega
    have htake : old.take x.length = x := by rw [hxy]; exact List.take_left _ _
    exact h2 x.length hk (List.length_pos.mpr hx) (by rw [htake]; exact hsuf)

theorem dropFreeAppend {old p : List Char} (s : List Char)
    (h : ∀ k < old.length, 0 < k → ¬ (old.drop k <+: p) ∧ ¬ (p <+: old.drop k)) :
    dropFree old (p ++ s) := by
  intro k hk h0 hpre
  rcases List.prefix_or_prefix_of_prefix hpre ⟨s, rfl⟩ with h1 | h2
  · exact (h k hk h0).1 h1
  · exact (h k hk h0).2 h2

/-! ## Replacement lemmas -/

theorem replAux_id (old new : List Char) :
    ∀ {s : List Char}, old ≠ [] → ¬ old <:+: s → replAux old new s 0 = s := by
  intro s
  induction s with
  | nil => intro _ _; rfl
  | cons c rest ih =>
    intro hne hinf
    have hp : old.isPrefixOf (c :: rest) = false := by
      cases hb : old.isPrefixOf (c :: rest)
      · rfl
      · exact absurd (infOfPfx ( List.isPrefixOf_iff_prefix.mp hb)) hinf
    simp only [replAux, hp, Bool.false_eq_true, if_false]
    rw [ih hne (fun hi => hinf (infConsTail hi))]

theorem pyStrReplace_id {s old new : String} (hne : old ≠ "")
    (h : ¬ old.data <:+: s.data) : pyStrReplace s old new = s := by
  have hd : old.data ≠ [] := by
    intro e
    apply hne
    cases old with
    | mk l =>
      have hl : l = [] := e
      rw [hl]
  unfold pyStrReplace pyReplaceL
  cases ho : old.data with
  | nil => exact absurd ho hd
  | cons c cs =>
    rw [ho] at h
    have := replAux_id (c :: cs) new.data (by simp) h
    simp only [this]

/-! ## Per-key facts: original values of the listed keys -/

/-- Original value of `BINDIR` in the embedded table. -/
theorem factKey0 : lookupV build_time_vars "BINDIR" = some (PyVal.str "C:/buildroot/x86_64-1320-win32-seh-ucrt-rt_v11-rev0/mingw64/opt/bin") := by
  decide

/-- Original value of `BINLIBDEST` in the embedded table. -/
theorem factKey1 : lookupV build_time_vars "BINLIBDEST" = some (PyVal.str "C:/buildroot/x86_64-1320-win32-seh-ucrt-rt_v11-rev0/mingw64/opt/lib/python3.9") := by
  decide

/-- Original value of `CONFINCLUDEDIR` in the embedded table. -/
theorem factKey2 : lookupV build_time_vars "CONFINCLUDEDIR" = some (PyVal.str "C:/buildroot/x86_64-1320-win32-seh-ucrt-rt_v11-rev0/mingw64/opt/include") := by
  decide

/-- Original value of `CONFINCLUDEPY` in the embedded table. -/
theorem factKey3 : lookupV build_time_vars "CONFINCLUDEPY" = some (PyVal.str "C:/buildroot/x86_64-1320-win32-seh-ucrt-rt_v11-rev0/mingw64/opt/include/python3.9") := by
  decide

/-- Original value of `DESTDIRS` in the embedded table. -/
theorem factKey4 : lookupV build_time_vars "DESTDIRS" = some (PyVal.str "C:/buildroot/x86_64-1320-win32-seh-ucrt-rt_v11-rev0/mingw64/opt C:/buildroot/x86_64-1320-win32-seh-ucrt-rt_v11-rev0/mingw64/opt/lib C:/buildroot/x86_64-1320-win32-seh-ucrt-rt_v11-rev0/mingw64/opt/lib/python3.9 C:/buildroot/x86_64-1320-win32-seh-ucrt-rt_v11-rev0/mingw64/opt/lib/python3.9/lib-dynload") := by
  decide

/-- Original value of `DESTLIB` in the embedded table. -/
theorem factKey5 : lookupV build_time_vars "DESTLIB" = some (PyVal.str "C:/buildroot/x86_64-1320-win32-seh-ucrt-rt_v11-rev0/mingw64/opt/lib/python3.9") := by
  decide

/-- Original value of `DESTSHARED` in the embedded table. -/
theorem factKey6 : lookupV build_time_vars "DESTSHARED" = some (PyVal.str "C:/buildroot/x86_64-1320-win32-seh-ucrt-rt_v11-rev0/mingw64/opt/lib/python3.9/lib-dynload") := by
  decide

/-- Original value of `INCLDIRSTOMAKE` in the embedded table. -/
theorem factKey7 : lookupV build_time_vars "INCLDIRSTOMAKE" = some (PyVal.str "C:/buildroot/x86_64-1320-win32-seh-ucrt-rt_v11-rev0/mingw64/opt/include C:/buildroot/x86_64-1320-win32-seh-ucrt-rt_v11-rev0/mingw64/opt/include C:/buildroot/x86_64-1320-win32-seh-ucrt-rt_v11-rev0/mingw64/opt/include/python3.9 C:/buildroot/x86_64-1320-win32-seh-ucrt-rt_v11-rev0/mingw64/opt/include/python3.9") := by
  decide

/-- Original value of `INCLUDEDIR` in the embedded table. -/
theorem factKey8 : lookupV build_time_vars "INCLUDEDIR" = some (PyVal.str "C:/buildroot/x86_64-1320-win32-seh-ucrt-rt_v11-rev0/mingw64/opt/include") := by
  decide

/-- Original value of `INCLUDEPY` in the embedded table. -/
theorem factKey9 : lookupV build_time_vars "INCLUDEPY" = some (PyVal.str "C:/buildroot/x86_64-1320-win32-seh-ucrt-rt_v11-rev0/mingw64/opt/include/python3.9") := by
  decide

/-- Original value of `LIBDEST` in the embedded table. -/
theorem factKey10 : lookupV build_time_vars "LIBDEST" = some (PyVal.str "C:/buildroot/x86_64-1320-win32-seh-ucrt-rt_v11-rev0/mingw64/opt/lib/python3.9") := by
  decide

/-- Original value of `LIBDIR` in the embedded table. -/
theorem factKey11 : lookupV build_time_vars "LIBDIR" = some (PyVal.str "C:/buildroot/x86_64-1320-win32-seh-ucrt-rt_v11-rev0/mingw64/opt/lib") := by
  decide

/-- Original value of `LIBPC` in the embedded table. -/
theorem factKey12 : lookupV build_time_vars "LIBPC" = some (PyVal.str "C:/buildroot/x86_64-1320-win32-seh-ucrt-rt_v11-rev0/mingw64/opt/lib/pkgconfig") := by
  decide

/-- Original value of `LIBPL` in the embedded table. -/
theorem factKey13 : lookupV build_time_vars "LIBPL" = some (PyVal.str "C:/buildroot/x86_64-1320-win32-seh-ucrt-rt_v11-rev0/mingw64/opt/lib/python3.9/config-3.9") := by
  decide

/-- Original value of `MACHDESTLIB` in the embedded table. -/
theorem factKey14 : lookupV build_time_vars "MACHDESTLIB" = some (PyVal.str "C:/buildroot/x86_64-1320-win32-seh-ucrt-rt_v11-rev0/mingw64/opt/lib/python3.9") := by
  decide

/-- Original value of `MANDIR` in the embedded table. -/
theorem factKey15 : lookupV build_time_vars "MANDIR" = some (PyVal.str "C:/buildroot/x86_64-1320-win32-seh-ucrt-rt_v11-rev0/mingw64/opt/share/man") := by
  decide

/-- Original value of `SCRIPTDIR` in the embedded table. -/
theorem factKey16 : lookupV build_time_vars "SCRIPTDIR" = some (PyVal.str "C:/buildroot/x86_64-1320-win32-seh-ucrt-rt_v11-rev0/mingw64/opt/lib") := by
  decide

/-- Original value of `datarootdir` in the embedded table. -/
theorem factKey17 : lookupV build_time_vars "datarootdir" = some (PyVal.str "C:/buildroot/x86_64-1320-win32-seh-ucrt-rt_v11-rev0/mingw64/opt/share") := by
  decide

/-- Original value of `exec_prefix` in the embedded table. -/
theorem factKey18 : lookupV build_time_vars "exec_prefix" = some (PyVal.str "C:/buildroot/x86_64-1320-win32-seh-ucrt-rt_v11-rev0/mingw64/opt") := by
  decide

/-- Original value of `TZPATH` in the embedded table. -/
theorem factKey19 : lookupV build_time_vars "TZPATH" = some (PyVal.str "/usr/share/zoneinfo:/usr/lib/zoneinfo:/usr/share/lib/zoneinfo:/etc/zoneinfo") := by
  decide

/-! ## Per-key replacement templates: the result of one `str.replace` on each
listed value, with a symbolic replacement `nw` -/

theorem tmplKey0 (nw : List Char) :
    pyReplaceL (String.data "C:/buildroot/x86_64-1320-win32-seh-ucrt-rt_v11-rev0/mingw64/opt/bin") oldPfx.data nw = nw ++ String.data "/bin" := rfl

theorem tmplKey1 (nw : List Char) :
    pyReplaceL (String.data "C:/buildroot/x86_64-1320-win32-seh-ucrt-rt_v11-rev0/mingw64/opt/lib/python3.9") oldPfx.data nw = nw ++ String.data "/lib/python3.9" := rfl

theorem tmplKey2 (nw : List Char) :
    pyReplaceL (String.data "C:/buildroot/x86_64-1320-win32-seh-ucrt-rt_v11-rev0/mingw64/opt/include") oldPfx.data nw = nw ++ String.data "/include" := rfl

theorem tmplKey3 (nw : List Char) :
    pyReplaceL (String.data "C:/buildroot/x86_64-1320-win32-seh-ucrt-rt_v11-rev0/mingw64/opt/include/python3.9") oldPfx.data nw = nw ++ String.data "/include/python3.9" := rfl

theorem tmplKey4 (nw : List Char) :
    pyReplaceL (String.data "C:/buildroot/x86_64-1320-win32-seh-ucrt-rt_v11-rev0/mingw64/opt C:/buildroot/x86_64-1320-win32-seh-ucrt-rt_v11-rev0/mingw64/opt/lib C:/buildroot/x86_64-1320-win32-seh-ucrt-rt_v11-rev0/mingw64/opt/lib/python3.9 C:/buildroot/x86_64-1320-win32-seh-ucrt-rt_v11-rev0/mingw64/opt/lib/python3.9/lib-dynload") oldPfx.data nw = nw ++ (String.data " " ++ (nw ++ (String.data "/lib " ++ (nw ++ (String.data "/lib/python3.9 " ++ (nw ++ String.data "/lib/python3.9/lib-dynload")))))) := rfl

theorem tmplKey5 (nw : List Char) :
    pyReplaceL (String.data "C:/buildroot/x86_64-1320-win32-seh-ucrt-rt_v11-rev0/mingw64/opt/lib/python3.9") oldPfx.data nw = nw ++ String.data "/lib/python3.9" := rfl

theorem tmplKey6 (nw : List Char) :
    pyReplaceL (String.data "C:/buildroot/x86_64-1320-win32-seh-ucrt-rt_v11-rev0/mingw64/opt/lib/python3.9/lib-dynload") oldPfx.data nw = nw ++ String.data "/lib/python3.9/lib-dynload" := rfl

theorem tmplKey7 (nw : List Char) :
    pyReplaceL (String.data "C:/buildroot/x86_64-1320-win32-seh-ucrt-rt_v11-rev0/mingw64/opt/include C:/buildroot/x86_64-1320-win32-seh-ucrt-rt_v11-rev0/mingw64/opt/include C:/buildroot/x86_64-1320-win32-seh-ucrt-rt_v11-rev0/mingw64/opt/include/python3.9 C:/buildroot/x86_64-1320-win32-seh-ucrt-rt_v11-rev0/mingw64/opt/include/python3.9") oldPfx.data nw = nw ++ (String.data "/include " ++ (nw ++ (String.data "/include " ++ (nw ++ (String.data "/include/python3.9 " ++ (nw ++ String.data "/include/python3.9")))))) := rfl

theorem tmplKey8 (nw : List Char) :
    pyReplaceL (String.data "C:/buildroot/x86_64-1320-win32-seh-ucrt-rt_v11-rev0/mingw64/opt/include") oldPfx.data nw = nw ++ String.data "/include" := rfl

theorem tmplKey9 (nw : List Char) :
    pyReplaceL (String.data "C:/buildroot/x86_64-1320-win32-seh-ucrt-rt_v11-rev0/mingw64/opt/include/python3.9") oldPfx.data nw = nw ++ String.data "/include/python3.9" := rfl

theorem tmplKey10 (nw : List Char) :
    pyReplaceL (String.data "C:/buildroot/x86_64-1320-win32-seh-ucrt-rt_v11-rev0/mingw64/opt/lib/python3.9") oldPfx.data nw = nw ++ String.data "/lib/python3.9" := rfl

theorem tmplKey11 (nw : List Char) :
    pyReplaceL (String.data "C:/buildroot/x86_64-1320-win32-seh-ucrt-rt_v11-rev0/mingw64/opt/lib") oldPfx.data nw = nw ++ String.data "/lib" := rfl

theorem tmplKey12 (nw : List Char) :
    pyReplaceL (String.data "C:/buildroot/x86_64-1320-win32-seh-ucrt-rt_v11-rev0/mingw64/opt/lib/pkgconfig") oldPfx.data nw = nw ++ String.data "/lib/pkgconfig" := rfl

theorem tmplKey13 (nw : List Char) :
    pyReplaceL (String.data "C:/buildroot/x86_64-1320-win32-seh-ucrt-rt_v11-rev0/mingw64/opt/lib/python3.9/config-3.9") oldPfx.data nw = nw ++ String.data "/lib/python3.9/config-3.9" := rfl

theorem tmplKey14 (nw : List Char) :
    pyReplaceL (String.data "C:/buildroot/x86_64-1320-win32-seh-ucrt-rt_v11-rev0/mingw64/opt/lib/python3.9") oldPfx.data nw = nw ++ String.data "/lib/python3.9" := rfl

theorem tmplKey15 (nw : List Char) :
    pyReplaceL (String.data "C:/buildroot/x86_64-1320-win32-seh-ucrt-rt_v11-rev0/mingw64/opt/share/man") oldPfx.data nw = nw ++ String.data "/share/man" := rfl

theorem tmplKey16 (nw : List Char) :
    pyReplaceL (String.data "C:/buildroot/x86_64-1320-win32-seh-ucrt-rt_v11-rev0/mingw64/opt/lib") oldPfx.data nw = nw ++ String.data "/lib" := rfl

theorem tmplKey17 (nw : List Char) :
    pyReplaceL (String.data "C:/buildroot/x86_64-1320-win32-seh-ucrt-rt_v11-rev0/mingw64/opt/share") oldPfx.data nw = nw ++ String.data "/share" := rfl

theorem tmplKey18 (nw : List Char) :
    pyReplaceL (String.data "C:/buildroot/x86_64-1320-win32-seh-ucrt-rt_v11-rev0/mingw64/opt") oldPfx.data nw = nw ++ String.data "" := rfl

theorem tmplKey19 (nw : List Char) :
    pyReplaceL (String.data "/usr/share/zoneinfo:/usr/lib/zoneinfo:/usr/share/lib/zoneinfo:/etc/zoneinfo") oldPfx.data nw = String.data "/usr/share/zoneinfo:/usr/lib/zoneinfo:/usr/share/lib/zoneinfo:/etc/zoneinfo" := rfl

/-! ## Per-key lemmas: after one replacement, the old root no longer occurs,
provided the replacement itself does not contain it -/

theorem noOldKey0 {nw : List Char} (h : ¬ oldPfx.data <:+: nw) :
    ¬ oldPfx.data <:+: pyReplaceL (String.data "C:/buildroot/x86_64-1320-win32-seh-ucrt-rt_v11-rev0/mingw64/opt/bin") oldPfx.data nw := by
  rw [tmplKey0]
  exact goodNew h (by decide) (by decide)

theorem noOldKey1 {nw : List Char} (h : ¬ oldPfx.data <:+: nw) :
    ¬ oldPfx.data <:+: pyReplaceL (String.data "C:/buildroot/x86_64-1320-win32-seh-ucrt-rt_v11-rev0/mingw64/opt/lib/python3.9") oldPfx.data nw := by
  rw [tmplKey1]
  exact goodNew h (by decide) (by decide)

theorem noOldKey2 {nw : List Char} (h : ¬ oldPfx.data <:+: nw) :
    ¬ oldPfx.data <:+: pyReplaceL (String.data "C:/buildroot/x86_64-1320-win32-seh-ucrt-rt_v11-rev0/mingw64/opt/include") oldPfx.data nw := by
  rw [tmplKey2]
  exact goodNew h (by decide) (by decide)

theorem noOldKey3 {nw : List Char} (h : ¬ oldPfx.data <:+: nw) :
    ¬ oldPfx.data <:+: pyReplaceL (String.data "C:/buildroot/x86_64-1320-win32-seh-ucrt-rt_v11-rev0/mingw64/opt/include/python3.9") oldPfx.data nw := by
  rw [tmplKey3]
  exact goodNew h (by decide) (by decide)

theorem noOldKey4 {nw : List Char} (h : ¬ oldPfx.data <:+: nw) :
    ¬ oldPfx.data <:+: pyReplaceL (String.data "C:/buildroot/x86_64-1320-win32-seh-ucrt-rt_v11-rev0/mingw64/opt C:/buildroot/x86_64-1320-win32-seh-ucrt-rt_v11-rev0/mingw64/opt/lib C:/buildroot/x86_64-1320-win32-seh-ucrt-rt_v11-rev0/mingw64/opt/lib/python3.9 C:/buildroot/x86_64-1320-win32-seh-ucrt-rt_v11-rev0/mingw64/opt/lib/python3.9/lib-dynload") oldPfx.data nw := by
  rw [tmplKey4]
  have w3 : ¬ oldPfx.data <:+: nw ++ String.data "/lib/python3.9/lib-dynload" :=
    goodNew h (by decide) (by decide)
  have a2 : ¬ oldPfx.data <:+: (String.data "/lib/python3.9 " ++ (nw ++ String.data "/lib/python3.9/lib-dynload")) :=
    goodConcrete (by decide) (by decide) w3
  have d2 : dropFree oldPfx.data (String.data "/lib/python3.9 " ++ (nw ++ String.data "/lib/python3.9/lib-dynload")) :=
    dropFreeAppend _ (by decide)
  have w2 : ¬ oldPfx.data <:+: nw ++ (String.data "/lib/python3.9 " ++ (nw ++ String.data "/lib/python3.9/lib-dynload")) :=
    goodNew h a2 d2
  have a1 : ¬ oldPfx.data <:+: (String.data "/lib " ++ (nw ++ (String.data "/lib/python3.9 " ++ (nw ++ String.data "/lib/python3.9/lib-dynload")))) :=
    goodConcrete (by decide) (by decide) w2
  have d1 : dropFree oldPfx.data (String.data "/lib " ++ (nw ++ (String.data "/lib/python3.9 " ++ (nw ++ String.data "/lib/python3.9/lib-dynload")))) :=
    dropFreeAppend _ (by decide)
  have w1 : ¬ oldPfx.data <:+: nw ++ (String.data "/lib " ++ (nw ++ (String.data "/lib/python3.9 " ++ (nw ++ String.data "/lib/python3.9/lib-dynload")))) :=
    goodNew h a1 d1
  have a0 : ¬ oldPfx.data <:+: (String.data " " ++ (nw ++ (String.data "/lib " ++ (nw ++ (String.data "/lib/python3.9 " ++ (nw ++ String.data "/lib/python3.9/lib-dynload")))))) :=
    goodConcrete (by decide) (by decide) w1
  have d0 : dropFree oldPfx.data (String.data " " ++ (nw ++ (String.data "/lib " ++ (nw ++ (String.data "/lib/python3.9 " ++ (nw ++ String.data "/lib/python3.9/lib-dynload")))))) :=
    dropFreeAppend _ (by decide)
  have w0 : ¬ oldPfx.data <:+: nw ++ (String.data " " ++ (nw ++ (String.data "/lib " ++ (nw ++ (String.data "/lib/python3.9 " ++ (nw ++ String.data "/lib/python3.9/lib-dynload")))))) :=
    goodNew h a0 d0
  exact w0

theorem noOldKey5 {nw : List Char} (h : ¬ oldPfx.data <:+: nw) :
    ¬ oldPfx.data <:+: pyReplaceL (String.data "C:/buildroot/x86_64-1320-win32-seh-ucrt-rt_v11-rev0/mingw64/opt/lib/python3.9") oldPfx.data nw := by
  rw [tmplKey5]
  exact goodNew h (by decide) (by decide)

theorem noOldKey6 {nw : List Char} (h : ¬ oldPfx.data <:+: nw) :
    ¬ oldPfx.data <:+: pyReplaceL (String.data "C:/buildroot/x86_64-1320-win32-seh-ucrt-rt_v11-rev0/mingw64/opt/lib/python3.9/lib-dynload") oldPfx.data nw := by
  rw [tmplKey6]
  exact goodNew h (by decide) (by decide)

theorem noOldKey7 {nw : List Char} (h : ¬ oldPfx.data <:+: nw) :
    ¬ oldPfx.data <:+: pyReplaceL (String.data "C:/buildroot/x86_64-1320-win32-seh-ucrt-rt_v11-rev0/mingw64/opt/include C:/buildroot/x86_64-1320-win32-seh-ucrt-rt_v11-rev0/mingw64/opt/include C:/buildroot/x86_64-1320-win32-seh-ucrt-rt_v11-rev0/mingw64/opt/include/python3.9 C:/buildroot/x86_64-1320-win32-seh-ucrt-rt_v11-rev0/mingw64/opt/include/python3.9") oldPfx.data nw := by
  rw [tmplKey7]
  have w3 : ¬ oldPfx.data <:+: nw ++ String.data "/include/python3.9" :=
    goodNew h (by decide) (by decide)
  have a2 : ¬ oldPfx.data <:+: (String.data "/include/python3.9 " ++ (nw ++ String.data "/include/python3.9")) :=
    goodConcrete (by decide) (by decide) w3
  have d2 : dropFree oldPfx.data (String.data "/include/python3.9 " ++ (nw ++ String.data "/include/python3.9")) :=
    dropFreeAppend _ (by decide)
  have w2 : ¬ oldPfx.data <:+: nw ++ (String.data "/include/python3.9 " ++ (nw ++ String.data "/include/python3.9")) :=
    goodNew h a2 d2
  have a1 : ¬ oldPfx.data <:+: (String.data "/include " ++ (nw ++ (String.data "/include/python3.9 " ++ (nw ++ String.data "/include/python3.9")))) :=
    goodConcrete (by decide) (by decide) w2
  have d1 : dropFree oldPfx.data (String.data "/include " ++ (nw ++ (String.data "/include/python3.9 " ++ (nw ++ String.data "/include/python3.9")))) :=
    dropFreeAppend _ (by decide)
  have w1 : ¬ oldPfx.data <:+: nw ++ (String.data "/include " ++ (nw ++ (String.data "/include/python3.9 " ++ (nw ++ String.data "/include/python3.9")))) :=
    goodNew h a1 d1
  have a0 : ¬ oldPfx.data <:+: (String.data "/include " ++ (nw ++ (String.data "/include " ++ (nw ++ (String.data "/include/python3.9 " ++ (nw ++ String.data "/include/python3.9")))))) :=
    goodConcrete (by decide) (by decide) w1
  have d0 : dropFree oldPfx.data (String.data "/include " ++ (nw ++ (String.data "/include " ++ (nw ++ (String.data "/include/python3.9 " ++ (nw ++ String.data "/include/python3.9")))))) :=
    dropFreeAppend _ (by decide)
  have w0 : ¬ oldPfx.data <:+: nw ++ (String.data "/include " ++ (nw ++ (String.data "/include " ++ (nw ++ (String.data "/include/python3.9 " ++ (nw ++ String.data "/include/python3.9")))))) :=
    goodNew h a0 d0
  exact w0

theorem noOldKey8 {nw : List Char} (h : ¬ oldPfx.data <:+: nw) :
    ¬ oldPfx.data <:+: pyReplaceL (String.data "C:/buildroot/x86_64-1320-win32-seh-ucrt-rt_v11-rev0/mingw64/opt/include") oldPfx.data nw := by
  rw [tmplKey8]
  exact goodNew h (by decide) (by decide)

theorem noOldKey9 {nw : List Char} (h : ¬ oldPfx.data <:+: nw) :
    ¬ oldPfx.data <:+: pyReplaceL (String.data "C:/buildroot/x86_64-1320-win32-seh-ucrt-rt_v11-rev0/mingw64/opt/include/python3.9") oldPfx.data nw := by
  rw [tmplKey9]
  exact goodNew h (by decide) (by decide)

theorem noOldKey10 {nw : List Char} (h : ¬ oldPfx.data <:+: nw) :
    ¬ oldPfx.data <:+: pyReplaceL (String.data "C:/buildroot/x86_64-1320-win32-seh-ucrt-rt_v11-rev0/mingw64/opt/lib/python3.9") oldPfx.data nw := by
  rw [tmplKey10]
  exact goodNew h (by decide) (by decide)

theorem noOldKey11 {nw : List Char} (h : ¬ oldPfx.data <:+: nw) :
    ¬ oldPfx.data <:+: pyReplaceL (String.data "C:/buildroot/x86_64-1320-win32-seh-ucrt-rt_v11-rev0/mingw64/opt/lib") oldPfx.data nw := by
  rw [tmplKey11]
  exact goodNew h (by decide) (by decide)

theorem noOldKey12 {nw : List Char} (h : ¬ oldPfx.data <:+: nw) :
    ¬ oldPfx.data <:+: pyReplaceL (String.data "C:/buildroot/x86_64-1320-win32-seh-ucrt-rt_v11-rev0/mingw64/opt/lib/pkgconfig") oldPfx.data nw := by
  rw [tmplKey12]
  exact goodNew h (by decide) (by decide)

theorem noOldKey13 {nw : List Char} (h : ¬ oldPfx.data <:+: nw) :
    ¬ oldPfx.data <:+: pyReplaceL (String.data "C:/buildroot/x86_64-1320-win32-seh-ucrt-rt_v11-rev0/mingw64/opt/lib/python3.9/config-3.9") oldPfx.data nw := by
  rw [tmplKey13]
  exact goodNew h (by decide) (by decide)

theorem noOldKey14 {nw : List Char} (h : ¬ oldPfx.data <:+: nw) :
    ¬ oldPfx.data <:+: pyReplaceL (String.data "C:/buildroot/x86_64-1320-win32-seh-ucrt-rt_v11-rev0/mingw64/opt/lib/python3.9") oldPfx.data nw := by
  rw [tmplKey14]
  exact goodNew h (by decide) (by decide)

theorem noOldKey15 {nw : List Char} (h : ¬ oldPfx.data <:+: nw) :
    ¬ oldPfx.data <:+: pyReplaceL (String.data "C:/buildroot/x86_64-1320-win32-seh-ucrt-rt_v11-rev0/mingw64/opt/share/man") oldPfx.data nw := by
  rw [tmplKey15]
  exact goodNew h (by decide) (by decide)

theorem noOldKey16 {nw : List Char} (h : ¬ oldPfx.data <:+: nw) :
    ¬ oldPfx.data <:+: pyReplaceL (String.data "C:/buildroot/x86_64-1320-win32-seh-ucrt-rt_v11-rev0/mingw64/opt/lib") oldPfx.data nw := by
  rw [tmplKey16]
  exact goodNew h (by decide) (by decide)

theorem noOldKey17 {nw : List Char} (h : ¬ oldPfx.data <:+: nw) :
    ¬ oldPfx.data <:+: pyReplaceL (String.data "C:/buildroot/x86_64-1320-win32-seh-ucrt-rt_v11-rev0/mingw64/opt/share") oldPfx.data nw := by
  rw [tmplKey17]
  exact goodNew h (by decide) (by decide)

theorem noOldKey18 {nw : List Char} (h : ¬ oldPfx.data <:+: nw) :
    ¬ oldPfx.data <:+: pyReplaceL (String.data "C:/buildroot/x86_64-1320-win32-seh-ucrt-rt_v11-rev0/mingw64/opt") oldPfx.data nw := by
  rw [tmplKey18]
  exact goodNew h (by decide) (by decide)

theorem noOldKey19 {nw : List Char} (_h : ¬ oldPfx.data <:+: nw) :
    ¬ oldPfx.data <:+: pyReplaceL (String.data "/usr/share/zoneinfo:/usr/lib/zoneinfo:/usr/share/lib/zoneinfo:/etc/zoneinfo") oldPfx.data nw := by
  rw [tmplKey19]
  decide

/-! ## Facts about the embedded table as a whole -/

theorem keysNodup : keys_to_replace.Nodup := by decide

/-- Every listed key is present in the embedded table with a string value. -/
theorem btKeysStr :
    ∀ k ∈ keys_to_replace, ∃ s, lookupV build_time_vars k = some (PyVal.str s) := by
  intro k hk
  fin_cases hk
  exacts [⟨_, factKey0⟩, ⟨_, factKey1⟩, ⟨_, factKey2⟩, ⟨_, factKey3⟩, ⟨_, factKey4⟩, ⟨_, factKey5⟩, ⟨_, factKey6⟩, ⟨_, factKey7⟩, ⟨_, factKey8⟩, ⟨_, factKey9⟩, ⟨_, factKey10⟩, ⟨_, factKey11⟩, ⟨_, factKey12⟩, ⟨_, factKey13⟩, ⟨_, factKey14⟩, ⟨_, factKey15⟩, ⟨_, factKey16⟩, ⟨_, factKey17⟩, ⟨_, factKey18⟩, ⟨_, factKey19⟩]

/-- The module-level pass on the embedded table first derives the old root
`build_time_vars["BINDIR"][:-4]`, which evaluates to `oldPfx`, and then runs
the rewrite loop with it. -/
theorem load_eq (nw : String) :
    loadAndNormalize nw build_time_vars = normalizeWith oldPfx nw build_time_vars := by
  have hd : dropLast4 "C:/buildroot/x86_64-1320-win32-seh-ucrt-rt_v11-rev0/mingw64/opt/bin" = oldPfx := by
    decide
  rw [loadAndNormalize, factKey0]
  show normalizeWith (dropLast4 "C:/buildroot/x86_64-1320-win32-seh-ucrt-rt_v11-rev0/mingw64/opt/bin") nw build_time_vars =
    normalizeWith oldPfx nw build_time_vars
  rw [hd]

/-- After one replacement, no listed value contains the old root, provided
the runtime root does not contain it. -/
theorem c5core {nw : String} (h : ¬ oldPfx.data <:+: nw.data) :
    ∀ k ∈ keys_to_replace, ∀ s, lookupV build_time_vars k = some (PyVal.str s) →
      ¬ oldPfx.data <:+: (pyStrReplace s oldPfx nw).data := by
  intro k hk
  fin_cases hk
  · intro s hs
    rw [factKey0] at hs
    simp only [Option.some.injEq, PyVal.str.injEq] at hs
    subst hs
    exact noOldKey0 h
  · intro s hs
    rw [factKey1] at hs
    simp only [Option.some.injEq, PyVal.str.injEq] at hs
    subst hs
    exact noOldKey1 h
  · intro s hs
    rw [factKey2] at hs
    simp only [Option.some.injEq, PyVal.str.injEq] at hs
    subst hs
    exact noOldKey2 h
  · intro s hs
    rw [factKey3] at hs
    simp only [Option.some.injEq, PyVal.str.injEq] at hs
    subst hs
    exact noOldKey3 h
  · intro s hs
    rw [factKey4] at hs
    simp only [Option.some.injEq, PyVal.str.injEq] at hs
    subst hs
    exact noOldKey4 h
  · intro s hs
    rw [factKey5] at hs
    simp only [Option.some.injEq, PyVal.str.injEq] at hs
    subst hs
    exact noOldKey5 h
  · intro s hs
    rw [factKey6] at hs
    simp only [Option.some.injEq, PyVal.str.injEq] at hs
    subst hs
    exact noOldKey6 h
  · intro s hs
    rw [factKey7] at hs
    simp only [Option.some.injEq, PyVal.str.injEq] at hs
    subst hs
    exact noOldKey7 h
  · intro s hs
    rw [factKey8] at hs
    simp only [Option.some.injEq, PyVal.str.injEq] at hs
    subst hs
    exact noOldKey8 h
  · intro s hs
    rw [factKey9] at hs
    simp only [Option.some.injEq, PyVal.str.injEq] at hs
    subst hs
    exact noOldKey9 h
  · intro s hs
    rw [factKey10] at hs
    simp only [Option.some.injEq, PyVal.str.injEq] at hs
    subst hs
    exact noOldKey10 h
  · intro s hs
    rw [factKey11] at hs
    simp only [Option.some.injEq, PyVal.str.injEq] at hs
    subst hs
    exact noOldKey11 h
  · intro s hs
    rw [factKey12] at hs
    simp only [Option.some.injEq, PyVal.str.injEq] at hs
    subst hs
    exact noOldKey12 h
  · intro s hs
    rw [factKey13] at hs
    simp only [Option.some.injEq, PyVal.str.injEq] at hs
    subst hs
    exact noOldKey13 h
  · intro s hs
    rw [factKey14] at hs
    simp only [Option.some.injEq, PyVal.str.injEq] at hs
    subst hs
    exact noOldKey14 h
  · intro s hs
    rw [factKey15] at hs
    simp only [Option.some.injEq, PyVal.str.injEq] at hs
    subst hs
    exact noOldKey15 h
  · intro s hs
    rw [factKey16] at hs
    simp only [Option.some.injEq, PyVal.str.injEq] at hs
    subst hs
    exact noOldKey16 h
  · intro s hs
    rw [factKey17] at hs
    simp only [Option.some.injEq, PyVal.str.injEq] at hs
    subst hs
    exact noOldKey17 h
  · intro s hs
    rw [factKey18] at hs
    simp only [Option.some.injEq, PyVal.str.injEq] at hs
    subst hs
    exact noOldKey18 h
  · intro s hs
    rw [factKey19] at hs
    simp only [Option.some.injEq, PyVal.str.injEq] at hs
    subst hs
    exact noOldKey19 h

/-- Each listed value either starts with the derived old root, or (for the
one listed value without any occurrence, `TZPATH`) is left unchanged by the
replacement for every runtime root. -/
theorem c6core :
    ∀ k ∈ keys_to_replace, ∀ s, lookupV build_time_vars k = some (PyVal.str s) →
      (oldPfx.data <+: s.data ∨ ∀ nw : String, pyStrReplace s oldPfx nw = s) := by
  intro k hk
  fin_cases hk
  · intro s hs
    rw [factKey0] at hs
    simp only [Option.some.injEq, PyVal.str.injEq] at hs
    subst hs
    exact Or.inl (by decide)
  · intro s hs
    rw [factKey1] at hs
    simp only [Option.some.injEq, PyVal.str.injEq] at hs
    subst hs
    exact Or.inl (by decide)
  · intro s hs
    rw [factKey2] at hs
    simp only [Option.some.injEq, PyVal.str.injEq] at hs
    subst hs
    exact Or.inl (by decide)
  · intro s hs
    rw [factKey3] at hs
    simp only [Option.some.injEq, PyVal.str.injEq] at hs
    subst hs
    exact Or.inl (by decide)
  · intro s hs
    rw [factKey4] at hs
    simp only [Option.some.injEq, PyVal.str.injEq] at hs
    subst hs
    exact Or.inl (by decide)
  · intro s hs
    rw [factKey5] at hs
    simp only [Option.some.injEq, PyVal.str.injEq] at hs
    subst hs
    exact Or.inl (by decide)
  · intro s hs
    rw [factKey6] at hs
    simp only [Option.some.injEq, PyVal.str.injEq] at hs
    subst hs
    exact Or.inl (by decide)
  · intro s hs
    rw [factKey7] at hs
    simp only [Option.some.injEq, PyVal.str.injEq] at hs
    subst hs
    exact Or.inl (by decide)
  · intro s hs
    rw [factKey8] at hs
    simp only [Option.some.injEq, PyVal.str.injEq] at hs
    subst hs
    exact Or.inl (by decide)
  · intro s hs
    rw [factKey9] at hs
    simp only [Option.some.injEq, PyVal.str.injEq] at hs
    subst hs
    exact Or.inl (by decide)
  · intro s hs
    rw [factKey10] at hs
    simp only [Option.some.injEq, PyVal.str.injEq] at hs
    subst hs
    exact Or.inl (by decide)
  · intro s hs
    rw [factKey11] at hs
    simp only [Option.some.injEq, PyVal.str.injEq] at hs
    subst hs
    exact Or.inl (by decide)
  · intro s hs
    rw [factKey12] at hs
    simp only [Option.some.injEq, PyVal.str.injEq] at hs
    subst hs
    exact Or.inl (by decide)
  · intro s hs
    rw [factKey13] at hs
    simp only [Option.some.injEq, PyVal.str.injEq] at hs
    subst hs
    exact Or.inl (by decide)
  · intro s hs
    rw [factKey14] at hs
    simp only [Option.some.injEq, PyVal.str.injEq] at hs
    subst hs
    exact Or.inl (by decide)
  · intro s hs
    rw [factKey15] at hs
    simp only [Option.some.injEq, PyVal.str.injEq] at hs
    subst hs
    exact Or.inl (by decide)
  · intro s hs
    rw [factKey16] at hs
    simp only [Option.some.injEq, PyVal.str.injEq] at hs
    subst hs
    exact Or.inl (by decide)
  · intro s hs
    rw [factKey17] at hs
    simp only [Option.some.injEq, PyVal.str.injEq] at hs
    subst hs
    exact Or.inl (by decide)
  · intro s hs
    rw [factKey18] at hs
    simp only [Option.some.injEq, PyVal.str.injEq] at hs
    subst hs
    exact Or.inl (by decide)
  · intro s hs
    rw [factKey19] at hs
    simp only [Option.some.injEq, PyVal.str.injEq] at hs
    subst hs
    exact Or.inr (fun nw => pyStrReplace_id (by decide) (by decide))

/-! ## Claims -/

/-- C1: For every key in the fixed rewrite list `keys_to_replace`, the
load-and-normalize step replaces every occurrence of the literal substring
`old_prefix` in that key's string value with the current runtime root
(case-sensitive, all occurrences, not anchored to the start of the value)
and stores the result back under the same key; in particular, for a value
containing two occurrences, both occurrences are rewritten. -/
theorem claim1 :
    (∀ nw : String, ∃ m₂, loadAndNormalize nw build_time_vars = some m₂ ∧
      ∀ k ∈ keys_to_replace, ∃ s, lookupV build_time_vars k = some (PyVal.str s) ∧
        lookupV m₂ k = some (PyVal.str (pyStrReplace s oldPfx nw))) ∧
    (∀ r : String, pyStrReplace "/opt/app/include -I/opt/app/include2" "/opt/app" r =
      r ++ ("/include -I" ++ (r ++ "/include2"))) := by
  constructor
  · intro nw
    obtain ⟨m₂, hm₂⟩ := @applySteps_some oldPfx nw _ _ btKeysStr
    refine ⟨m₂, by rw [load_eq]; exact hm₂, ?_⟩
    intro k hk
    exact applySteps_val keysNodup hm₂ k hk
  · intro r
    rfl

/-- C1 witness: instance of the theorem at runtime root `"/usr"` and key
`"BINDIR"`. -/
theorem claim1_witness :
    ∃ m₂, loadAndNormalize "/usr" build_time_vars = some m₂ ∧
      ∃ s, lookupV build_time_vars "BINDIR" = some (PyVal.str s) ∧
        lookupV m₂ "BINDIR" = some (PyVal.str (pyStrReplace s oldPfx "/usr")) := by
  obtain ⟨m₂, h1, h2⟩ := claim1.1 "/usr"
  exact ⟨m₂, h1, h2 "BINDIR" (by decide)⟩

/-- C2: Every key of the mapping that is not in the fixed rewrite list has
the same value before and after normalization; the pass modifies no entry
outside that list. -/
theorem claim2 : ∀ nw : String, ∃ m₂, loadAndNormalize nw build_time_vars = some m₂ ∧
    ∀ k, k ∉ keys_to_replace → lookupV m₂ k = lookupV build_time_vars k := by
  intro nw
  obtain ⟨m₂, hm₂⟩ := @applySteps_some oldPfx nw _ _ btKeysStr
  exact ⟨m₂, by rw [load_eq]; exact hm₂, fun k hk => applySteps_frame hm₂ k hk⟩

/-- C2 witness: instance of the theorem at runtime root `"/usr"` and the
unlisted key `"CC"`. -/
theorem claim2_witness :
    ∃ m₂, loadAndNormalize "/usr" build_time_vars = some m₂ ∧
      lookupV m₂ "CC" = lookupV build_time_vars "CC" := by
  obtain ⟨m₂, h1, h2⟩ := claim2 "/usr"
  exact ⟨m₂, h1, h2 "CC" (by decide)⟩

/-- C3: The derived old root is the value of the reference entry `BINDIR`
with its trailing four characters `"/bin"` removed; the embedded `BINDIR`
value is `oldPfx ++ "/bin"` and the pass runs with `oldPfx`.  The spec
scenario also holds: `"/opt/app/bin"` yields `"/opt/app"`, and
`"/opt/app/lib/app3.9"` rewritten with runtime root `"/usr/local"` becomes
`"/usr/local/lib/app3.9"`. -/
theorem claim3 :
    lookupV build_time_vars "BINDIR" = some (PyVal.str (oldPfx ++ "/bin")) ∧
    dropLast4 (oldPfx ++ "/bin") = oldPfx ∧
    (∀ nw : String, loadAndNormalize nw build_time_vars = normalizeWith oldPfx nw build_time_vars) ∧
    dropLast4 "/opt/app/bin" = "/opt/app" ∧
    pyStrReplace "/opt/app/lib/app3.9" "/opt/app" "/usr/local" = "/usr/local/lib/app3.9" :=
  ⟨by decide, by decide, load_eq, by decide, by decide⟩

/-- C4 counterexample: the claim "for every old/new pair with the new
root not containing the old one, the pass is idempotent on the mapping"
fails at the concrete pair `old = "ro"`, `new = "xr"` on the embedded
table: `"xr"` does not contain `"ro"`, yet running the loop twice differs
from running it once (inside `BINDIR`, `"buildroot"` becomes
`"buildxrot"` after one pass and `"buildxxrt"` after two, because a new
occurrence of `"ro"` straddles the boundary of the inserted text). -/
theorem claim4_counterexample :
    ¬ ("ro".data <:+: "xr".data) ∧
    (normalizeWith "ro" "xr" build_time_vars).bind (normalizeWith "ro" "xr") ≠
      normalizeWith "ro" "xr" build_time_vars := by
  refine ⟨by decide, ?_⟩
  intro heq
  obtain ⟨m₁, hm₁⟩ := @applySteps_some "ro" "xr" _ _ btKeysStr
  have hm₁' : normalizeWith "ro" "xr" build_time_vars = some m₁ := hm₁
  obtain ⟨s, hs, hs₁⟩ := applySteps_val keysNodup hm₁ "BINDIR" (by decide)
  rw [factKey0] at hs
  simp only [Option.some.injEq, PyVal.str.injEq] at hs
  subst hs
  rw [hm₁'] at heq
  have heq' : normalizeWith "ro" "xr" m₁ = some m₁ := heq
  obtain ⟨t, ht, ht₂⟩ := applySteps_val keysNodup heq' "BINDIR" (by decide)
  rw [hs₁] at ht
  simp only [Option.some.injEq, PyVal.str.injEq] at ht
  subst ht
  rw [hs₁] at ht₂
  simp only [Option.some.injEq, PyVal.str.injEq] at ht₂
  exact absurd ht₂ (by decide)

/-- C4 (amended): running the loop twice with the same old/new pair gives
the same mapping as running it once, provided that after the first run no
listed key's value contains the old root as a substring.  (The original
proviso — that the new root not contain the old one — is not sufficient,
because an occurrence can reassemble at the boundary between an inserted
replacement and the following text, as the counterexample shows.) -/
theorem claim4_amended {oldP nw : String} {m m₁ : List (String × PyVal)}
    (hne : oldP ≠ "")
    (_h1 : normalizeWith oldP nw m = some m₁)
    (h2 : ∀ k ∈ keys_to_replace, ∃ s, lookupV m₁ k = some (PyVal.str s) ∧
      ¬ (oldP.data <:+: s.data)) :
    normalizeWith oldP nw m₁ = some m₁ := by
  apply applySteps_id
  intro k hk
  obtain ⟨s, ha, hb⟩ := h2 k hk
  exact ⟨s, ha, pyStrReplace_id hne hb⟩

/-- C4 witness: instance of the amended theorem on a concrete table with
`old = "p"`, `new = "q"`, every listed value `"p/x"`. -/
theorem claim4_witness :
    ("p" : String) ≠ "" ∧ normalizeWith "p" "q" tinyT = some tinyT1 ∧
    (∀ k ∈ keys_to_replace, ∃ s, lookupV tinyT1 k = some (PyVal.str s) ∧
      ¬ ("p".data <:+: s.data)) ∧
    normalizeWith "p" "q" tinyT1 = some tinyT1 := by
  have h0 : ("p" : String) ≠ "" := by decide
  have h1 : normalizeWith "p" "q" tinyT = some tinyT1 := by decide
  have h2 : ∀ k ∈ keys_to_replace, ∃ s, lookupV tinyT1 k = some (PyVal.str s) ∧
      ¬ ("p".data <:+: s.data) := by
    intro k hk
    fin_cases hk <;> exact ⟨"q/x", by decide, by decide⟩
  exact ⟨h0, h1, h2, claim4_amended h0 h1 h2⟩

/-- C5: for every key in the fixed rewrite list, after normalization that
key's value no longer contains the derived old root as a substring,
unless the new runtime root itself contains it. -/
theorem claim5 {nw : String} (h : ¬ (oldPfx.data <:+: nw.data)) :
    ∀ m₂, loadAndNormalize nw build_time_vars = some m₂ →
      ∀ k ∈ keys_to_replace, ∀ s, lookupV m₂ k = some (PyVal.str s) →
        ¬ (oldPfx.data <:+: s.data) := by
  intro m₂ hm₂ k hk s hs
  rw [load_eq] at hm₂
  obtain ⟨t, ht, ht₂⟩ := applySteps_val keysNodup hm₂ k hk
  rw [ht₂] at hs
  simp only [Option.some.injEq, PyVal.str.injEq] at hs
  subst hs
  exact c5core h k hk t ht

/-- C5 witness: instance of the theorem at runtime root `"/usr"`, which
does not contain the old root. -/
theorem claim5_witness :
    ¬ (oldPfx.data <:+: "/usr".data) ∧
    (∀ m₂, loadAndNormalize "/usr" build_time_vars = some m₂ →
      ∀ k ∈ keys_to_replace, ∀ s, lookupV m₂ k = some (PyVal.str s) →
        ¬ (oldPfx.data <:+: s.data)) := by
  have h : ¬ (oldPfx.data <:+: "/usr".data) := by decide
  exact ⟨h, claim5 h⟩

/-- C6: for every key in the fixed rewrite list, either the derived old
root occurs at the start of that key's original value, or the rewrite
leaves the value unchanged (the latter holds for `TZPATH`, whose value
contains no occurrence at all). -/
theorem claim6 : ∀ nw : String, ∃ m₂, loadAndNormalize nw build_time_vars = some m₂ ∧
    ∀ k ∈ keys_to_replace, ∃ s, lookupV build_time_vars k = some (PyVal.str s) ∧
      (oldPfx.data <+: s.data ∨ lookupV m₂ k = some (PyVal.str s)) := by
  intro nw
  obtain ⟨m₂, hm₂⟩ := @applySteps_some oldPfx nw _ _ btKeysStr
  refine ⟨m₂, by rw [load_eq]; exact hm₂, ?_⟩
  intro k hk
  obtain ⟨s, hs, hs₂⟩ := applySteps_val keysNodup hm₂ k hk
  refine ⟨s, hs, ?_⟩
  rcases c6core k hk s hs with hl | hr
  · exact Or.inl hl
  · exact Or.inr (by rw [hs₂, hr nw])

/-- C6 witness: instance of the theorem at runtime root `"/usr"` and key
`"TZPATH"`. -/
theorem claim6_witness :
    ∃ m₂, loadAndNormalize "/usr" build_time_vars = some m₂ ∧
      ∃ s, lookupV build_time_vars "TZPATH" = some (PyVal.str s) ∧
        (oldPfx.data <+: s.data ∨ lookupV m₂ "TZPATH" = some (PyVal.str s)) := by
  obtain ⟨m₂, h1, h2⟩ := claim6 "/usr"
  exact ⟨m₂, h1, h2 "TZPATH" (by decide)⟩

/-- C7: if the designated reference key `BINDIR` is absent from the
mapping, load-and-normalize fails at initialization (`none`) instead of
proceeding; on the embedded table (where `BINDIR` is present) the load
succeeds, and a query for an absent key afterwards is an ordinary lookup
failure on the loaded mapping, distinct from the initialization
failure. -/
theorem claim7 :
    (∀ nw : String, ∀ m : List (String × PyVal), lookupV m "BINDIR" = none →
      loadAndNormalize nw m = none) ∧
    (∀ nw : String, ∃ m₂, loadAndNormalize nw build_time_vars = some m₂ ∧
      lookupV m₂ "NO_SUCH_KEY" = none) := by
  constructor
  · intro nw m h
    rw [loadAndNormalize, h]
  · intro nw
    obtain ⟨m₂, hm₂⟩ := @applySteps_some oldPfx nw _ _ btKeysStr
    refine ⟨m₂, by rw [load_eq]; exact hm₂, ?_⟩
    rw [applySteps_frame hm₂ "NO_SUCH_KEY" (by decide)]
    decide

/-- C7 witness: instance of the theorem on the empty mapping (where
`BINDIR` is absent) and, for the second part, the embedded table. -/
theorem claim7_witness :
    loadAndNormalize "/usr" [] = none ∧
    (∃ m₂, loadAndNormalize "/usr" build_time_vars = some m₂ ∧
      lookupV m₂ "NO_SUCH_KEY" = none) :=
  ⟨claim7.1 "/usr" [] rfl, claim7.2 "/usr"⟩

/-- C8: all 20 keys of the fixed rewrite list are present in the embedded
table with string values, so the loop's lookups and replacements are
total: the pass succeeds for every old/new pair. -/
theorem claim8 :
    keys_to_replace.length = 20 ∧
    (∀ k ∈ keys_to_replace, ∃ s, lookupV build_time_vars k = some (PyVal.str s)) ∧
    (∀ oldP nw : String, ∃ m₂, normalizeWith oldP nw build_time_vars = some m₂) := by
  refine ⟨by decide, btKeysStr, ?_⟩
  intro oldP nw
  exact @applySteps_some oldP nw _ _ btKeysStr

/-- C8 witness: instance of the theorem at key `"BINDIR"` and at the
concrete pair `"a"`, `"b"`. -/
theorem claim8_witness :
    (∃ s, lookupV build_time_vars "BINDIR" = some (PyVal.str s)) ∧
    (∃ m₂, normalizeWith "a" "b" build_time_vars = some m₂) :=
  ⟨claim8.2.1 "BINDIR" (by decide), claim8.2.2 "a" "b"⟩

/-- C9: the keys `prefix` and `prefix_b2h` are not in the rewrite list
while `exec_prefix` is; after normalization, a query for `prefix` (or
`prefix_b2h`) still returns the original build-root path `oldPfx`, while
a query for `exec_prefix` returns the relocated path, namely the runtime
root itself. -/
theorem claim9 :
    "prefix" ∉ keys_to_replace ∧ "prefix_b2h" ∉ keys_to_replace ∧
    "exec_prefix" ∈ keys_to_replace ∧
    (∀ nw : String, ∃ m₂, loadAndNormalize nw build_time_vars = some m₂ ∧
      lookupV m₂ "prefix" = some (PyVal.str oldPfx) ∧
      lookupV m₂ "prefix_b2h" = some (PyVal.str oldPfx) ∧
      lookupV m₂ "exec_prefix" = some (PyVal.str nw)) := by
  refine ⟨by decide, by decide, by decide, ?_⟩
  intro nw
  obtain ⟨m₂, hm₂⟩ := @applySteps_some oldPfx nw _ _ btKeysStr
  refine ⟨m₂, by rw [load_eq]; exact hm₂, ?_, ?_, ?_⟩
  · rw [applySteps_frame hm₂ "prefix" (by decide)]
    decide
  · rw [applySteps_frame hm₂ "prefix_b2h" (by decide)]
    decide
  · obtain ⟨s, hs, hs₂⟩ := applySteps_val keysNodup hm₂ "exec_prefix" (by decide)
    rw [factKey18] at hs
    simp only [Option.some.injEq, PyVal.str.injEq] at hs
    subst hs
    rw [hs₂]
    have hrepl :
        pyStrReplace "C:/buildroot/x86_64-1320-win32-seh-ucrt-rt_v11-rev0/mingw64/opt" oldPfx nw
          = nw := by
      show String.mk (pyReplaceL
        (String.data "C:/buildroot/x86_64-1320-win32-seh-ucrt-rt_v11-rev0/mingw64/opt")
        oldPfx.data nw.data) = nw
      rw [tmplKey18]
      rw [show String.data "" = ([] : List Char) from rfl, List.append_nil]
    rw [hrepl]

/-- C9 witness: instance of the theorem at runtime root `"/usr"`. -/
theorem claim9_witness :
    ∃ m₂, loadAndNormalize "/usr" build_time_vars = some m₂ ∧
      lookupV m₂ "prefix" = some (PyVal.str oldPfx) ∧
      lookupV m₂ "prefix_b2h" = some (PyVal.str oldPfx) ∧
      lookupV m₂ "exec_prefix" = some (PyVal.str "/usr") :=
  claim9.2.2.2 "/usr"

/-- C10: the embedded `BINDIR` value ends with the four-character suffix
`"/bin"` and is strictly longer than four characters, so the derived old
root is non-empty and the `BINDIR` value is exactly the old root followed
by `"/bin"`; the ill-defined empty-pattern substitution is unreachable
for this table. -/
theorem claim10 :
    lookupV build_time_vars "BINDIR" = some (PyVal.str (oldPfx ++ "/bin")) ∧
    "/bin".data <:+ (oldPfx ++ "/bin").data ∧
    4 < (oldPfx ++ "/bin").data.length ∧
    oldPfx ≠ "" ∧
    dropLast4 (oldPfx ++ "/bin") = oldPfx :=
  ⟨by decide, by decide, by decide, by decide, by decide⟩
